import Mathlib

/-
Verification development for the AutoPlayVideo (Viboot) sleep-timer extension.

The definitions below are a shallow embedding of
`src/extension/background/timer-engine.js` (class `SleepTimerEngine`) together
with the small slice of the chrome platform it uses:

  * `chrome.storage.local`   -> `Store` (keys `activeTimer`, `lastTimer`, `settings`)
  * `chrome.alarms`          -> `Alarms` (names `vibootTimerTick` / `vibootTimerExpiry`)
  * `chrome.tabs`            -> `List Tab` (a tab is its id plus its URL hostname;
                                URL parsing itself is out of scope, hostnames are given)
  * the external action ports (`pauseVideo`, `chrome.notifications.create`) are
    modelled by counters `pauseCount` / `notifyCount` recording invocations.

Times are epoch milliseconds as `Int`; every `Date.now()` read inside one
operation is modelled by the single `now` argument of that operation.
JavaScript `Math.floor(a / 1000)` on integer millisecond differences is `Int`
division `/` (Euclidean division, which coincides with floor division for the
positive literal divisors used here).  Each engine method is modelled as one
atomic state transition; the deferred `setTimeout(finalCleanup, 1000)` inside
`onTimerExpire` is modelled by the flag `pendingFinalCleanup` plus the separate
transition `finalCleanupTimeout`.  Purely presentational externals
(`console.log`, badge text, messages to content scripts / popups) have no state
and are omitted; the broadcast throttling fields, which are engine state, are
kept.
-/

namespace AutoPlayVideo

/-- Timer status strings used by the engine: only `'active'` and `'paused'`
are ever stored. -/
inductive TStatus where
  | active
  | paused
deriving Repr, DecidableEq

/-- The persisted/in-memory timer object built in `startTimer`
(timer-engine.js:79-86); `pausedAt` is added by `pauseTimer` and removed by
`resumeTimer`. -/
structure TimerRecord where
  tabId : Nat
  platform : String
  duration : Int
  remaining : Int
  startTime : Int
  status : TStatus
  pausedAt : Option Int
deriving Repr, DecidableEq

/-- Settings object, defaulting per `getSettings` (timer-engine.js:632-637). -/
structure Settings where
  showNotifications : Bool
  showOverlay : Bool
  defaultTimer : Int
deriving Repr, DecidableEq

/-- The `lastTimer` record written by `saveLastTimerInfo`
(timer-engine.js:236-241). -/
structure LastTimer where
  endTime : Int
  site : String
  siteName : String
  duration : Int
deriving Repr, DecidableEq

/-- `chrome.storage.local` as used by the engine: the flat key-value namespace
with keys `activeTimer`, `lastTimer` and `settings`. -/
structure Store where
  activeTimer : Option TimerRecord
  lastTimer : Option LastTimer
  settings : Option Settings
deriving Repr, DecidableEq

/-- The two chrome alarms: the repeating `vibootTimerTick` (armed or not) and
the one-shot `vibootTimerExpiry` (its absolute `when` time in epoch ms). -/
structure Alarms where
  tick : Bool
  expiry : Option Int
deriving Repr, DecidableEq

/-- A browser tab: its id and the hostname of its URL. -/
structure Tab where
  id : Nat
  host : String
deriving Repr, DecidableEq

/-- In-memory fields of `SleepTimerEngine` (constructor, timer-engine.js:27-41),
all reset to their initial values on a process restart.  `intervalId` models
whether the 1-second countdown interval is armed.  `pendingFinalCleanup` models
the pending `setTimeout(finalCleanup, 1000)` scheduled by `onTimerExpire`. -/
structure Engine where
  activeTimer : Option TimerRecord
  intervalId : Bool
  lastBroadcast : Int
  lastBroadcastRemaining : Int
  shouldBroadcast : Bool
  isExpiring : Bool
  isTicking : Bool
  isRestoring : Bool
  expirationLock : Bool
  lastExpirationTime : Int
  pendingFinalCleanup : Bool
deriving Repr, DecidableEq

/-- The whole system: engine instance, durable store, alarms, tabs, and the
invocation counters of the external pause / notification action ports. -/
structure SysState where
  engine : Engine
  store : Store
  alarms : Alarms
  tabs : List Tab
  pauseCount : Nat
  notifyCount : Nat
deriving Repr, DecidableEq

/-- Engine field values installed by the constructor (timer-engine.js:27-41). -/
def engineInit : Engine :=
  { activeTimer := none
    intervalId := false
    lastBroadcast := 0
    lastBroadcastRemaining := -1
    shouldBroadcast := true
    isExpiring := false
    isTicking := false
    isRestoring := false
    expirationLock := false
    lastExpirationTime := 0
    pendingFinalCleanup := false }

/-- Character-list prefix test (kernel-computable). -/
def charsPrefix : List Char → List Char → Bool
  | [], _ => true
  | _ :: _, [] => false
  | c :: cs, d :: ds => c == d && charsPrefix cs ds

/-- Character-list containment test (kernel-computable). -/
def charsContains (pat : List Char) : List Char → Bool
  | [] => charsPrefix pat []
  | c :: cs => charsPrefix pat (c :: cs) || charsContains pat cs

/-- JavaScript `s.includes(sub)`: substring containment. -/
def strIncludes (s sub : String) : Bool :=
  charsContains sub.data s.data

/-- `detectPlatform` (timer-engine.js:617-630) applied to the tab URL's
hostname. -/
def detectPlatform (host : String) : String :=
  if strIncludes host "netflix.com" then "netflix"
  else if strIncludes host "primevideo.com" || strIncludes host "amazon.com" then "amazon"
  else if strIncludes host "disneyplus.com" then "disney"
  else if strIncludes host "youtube.com" then "youtube"
  else if strIncludes host "crunchyroll.com" then "crunchyroll"
  else if strIncludes host "hbomax.com" || strIncludes host "max.com" then "hbo"
  else if strIncludes host "twitch.tv" then "twitch"
  else if strIncludes host "hulu.com" then "hulu"
  else "generic"

/-- `getSiteDisplayName` (timer-engine.js:253-272): well-known platform names,
else the hostname with a leading `www.` stripped, up to the first dot. -/
def getSiteDisplayName (hostname : String) : String :=
  if strIncludes hostname "netflix.com" then "Netflix"
  else if strIncludes hostname "youtube.com" then "YouTube"
  else if strIncludes hostname "disneyplus.com" then "Disney+"
  else if strIncludes hostname "hbomax.com" then "HBO Max"
  else if strIncludes hostname "max.com" then "Max"
  else if strIncludes hostname "amazon.com" then "Prime Video"
  else if strIncludes hostname "primevideo.com" then "Prime Video"
  else if strIncludes hostname "hulu.com" then "Hulu"
  else if strIncludes hostname "crunchyroll.com" then "Crunchyroll"
  else if strIncludes hostname "twitch.tv" then "Twitch"
  else
    let stripped :=
      if charsPrefix "www.".data hostname.data then hostname.data.drop 4 else hostname.data
    String.mk (stripped.takeWhile (fun c => c != '.'))

/-- `getSettings` (timer-engine.js:632-637): stored settings or the default. -/
def getSettings (s : SysState) : Settings :=
  s.store.settings.getD { showNotifications := true, showOverlay := true, defaultTimer := 30 }

/-- `chrome.tabs.get` as used by the engine: look the tab up by id. -/
def tabGet (s : SysState) (tabId : Nat) : Option Tab :=
  s.tabs.find? (fun tab => tab.id == tabId)

/-- `showExpiryNotification` (timer-engine.js:557-572): invokes the
notification port unless notifications are turned off in settings. -/
def showExpiryNotification (s : SysState) : SysState :=
  if (getSettings s).showNotifications then { s with notifyCount := s.notifyCount + 1 } else s

/-- `saveLastTimerInfo` (timer-engine.js:216-248): writes the `lastTimer` key
with the end time, site, display name and configured duration. -/
def saveLastTimerInfo (s : SysState) (now : Int) : SysState :=
  match s.engine.activeTimer with
  | none => s
  | some t =>
    let fallbackName := if t.platform = "" then "Unknown" else t.platform
    let info : LastTimer :=
      match tabGet s t.tabId with
      | some tab =>
        { endTime := now, site := tab.host, siteName := getSiteDisplayName tab.host
          duration := t.duration }
      | none =>
        { endTime := now, site := "", siteName := fallbackName, duration := t.duration }
    { s with store := { s.store with lastTimer := some info } }

/-- `broadcastTimerUpdate` (timer-engine.js:587-611): sending the messages has
no engine state, but the throttling fields `lastBroadcast` /
`lastBroadcastRemaining` are updated exactly as in the source. -/
def broadcastTimerUpdate (s : SysState) (now : Int) : SysState :=
  if !s.engine.shouldBroadcast then s
  else if now - s.engine.lastBroadcast < 2000 then s
  else if s.engine.activeTimer.map TimerRecord.remaining = some s.engine.lastBroadcastRemaining then s
  else
    { s with engine :=
      { s.engine with
        lastBroadcast := now
        lastBroadcastRemaining := (s.engine.activeTimer.map TimerRecord.remaining).getD (-1) } }

/-- `saveTimerState` (timer-engine.js:204-211): persist the in-memory timer. -/
def saveTimerState (s : SysState) : SysState :=
  match s.engine.activeTimer with
  | none => s
  | some t => { s with store := { s.store with activeTimer := some t } }

/-- `finalCleanup` (timer-engine.js:385-393): clear the in-memory timer and
remove the persisted `activeTimer` record (plus badge, which has no state). -/
def finalCleanup (s : SysState) : SysState :=
  { s with
    engine := { s.engine with activeTimer := none }
    store := { s.store with activeTimer := none } }

/-- `cleanup` (timer-engine.js:372-383): reset the in-process flags, stop the
countdown interval and clear both chrome alarms.  It does not touch storage. -/
def cleanup (s : SysState) : SysState :=
  { s with
    engine := { s.engine with
      isExpiring := false
      isTicking := false
      expirationLock := false
      shouldBroadcast := true
      intervalId := false }
    alarms := { tick := false, expiry := none } }

/-- `onTimerExpire` (timer-engine.js:295-360).  The 5-second timestamp
deduplication against the in-memory `lastExpirationTime` comes first; the
timestamp is recorded before the lock check, exactly as in the source.  The
pause port runs only when the tab exists; the final cleanup is deferred
(`pendingFinalCleanup`, the `setTimeout` of 1000 ms at lines 354-359). -/
def onTimerExpire (s : SysState) (now : Int) : SysState :=
  if now - s.engine.lastExpirationTime < 5000 then s
  else
    let s := { s with engine := { s.engine with lastExpirationTime := now } }
    if s.engine.expirationLock || s.engine.isExpiring then s
    else
      let s := { s with engine :=
        { s.engine with expirationLock := true, isExpiring := true, shouldBroadcast := true } }
      match s.engine.activeTimer with
      | none =>
        finalCleanup { s with engine := { s.engine with isExpiring := false } }
      | some t =>
        let s := { s with
          engine := { s.engine with intervalId := false }
          alarms := { tick := false, expiry := none } }
        let s := saveLastTimerInfo s now
        let s :=
          if (tabGet s t.tabId).isSome then
            showExpiryNotification { s with pauseCount := s.pauseCount + 1 }
          else
            showExpiryNotification s
        { s with engine := { s.engine with pendingFinalCleanup := true } }

/-- The deferred `setTimeout(async () => { await finalCleanup(); ... }, 1000)`
scheduled by `onTimerExpire` (timer-engine.js:354-359) firing. -/
def finalCleanupTimeout (s : SysState) : SysState :=
  if s.engine.pendingFinalCleanup then
    let s := finalCleanup s
    { s with engine :=
      { s.engine with isExpiring := false, expirationLock := false, pendingFinalCleanup := false } }
  else s

/-- `checkAndExpireIfNeeded` (timer-engine.js:278-293): the centralized
expiration check.  Skips when no in-memory timer or already expiring, then
recomputes remaining time from the wall clock and expires when due.  Note that
it does not inspect `status`. -/
def checkAndExpireIfNeeded (s : SysState) (now : Int) : SysState :=
  match s.engine.activeTimer with
  | none => s
  | some t =>
    if s.engine.isExpiring then s
    else
      let elapsed := (now - t.startTime) / 1000
      if t.duration - elapsed ≤ 0 then
        onTimerExpire
          { s with engine := { s.engine with activeTimer := some { t with remaining := 0 } } } now
      else s

/-- One firing of the countdown interval callback, `tick`
(timer-engine.js:122-160).  The `finally` clause always resets `isTicking`. -/
def tick (s : SysState) (now : Int) : SysState :=
  match s.engine.activeTimer with
  | none => { s with engine := { s.engine with isTicking := false } }
  | some t =>
    if s.engine.isExpiring = true ∨ s.engine.isTicking = true ∨ t.status = .paused then
      { s with engine := { s.engine with isTicking := false } }
    else
      let t1 := { t with remaining := t.remaining - 1 }
      let s1 := { s with engine := { s.engine with activeTimer := some t1, isTicking := true } }
      let s2 := broadcastTimerUpdate s1 now
      if t1.remaining ≤ 0 then
        let s3 := { s2 with engine := { s2.engine with intervalId := false } }
        let s4 := checkAndExpireIfNeeded s3 now
        { s4 with engine := { s4.engine with isTicking := false } }
      else
        let s3 := if t1.remaining % 10 = 0 then saveTimerState s2 else s2
        { s3 with engine := { s3.engine with isTicking := false } }

/-- `stopTimer` (timer-engine.js:362-370): reset expiration flags, run
`cleanup` and then `finalCleanup` (the overlay message has no state). -/
def stopTimer (s : SysState) : SysState :=
  let s := { s with engine := { s.engine with isExpiring := false, expirationLock := false } }
  finalCleanup (cleanup s)

/-- `startTimer` (timer-engine.js:58-111), with the duration already converted
to whole seconds (`Math.round(minutes * 60)` at the entry).  Validates the
duration bounds and that the tab exists, stops any existing timer, then builds,
persists and arms the new `active` record anchored at `now`. -/
def startTimer (s : SysState) (now : Int) (durationSeconds : Int) (tabId : Nat) :
    SysState × Except String TimerRecord :=
  if durationSeconds < 1 ∨ 86400 < durationSeconds then
    (s, .error "Timer must be between 1 second and 24 hours")
  else
    match tabGet s tabId with
    | none => (s, .error "Tab not found or inaccessible")
    | some tab =>
      let s := stopTimer s
      let t : TimerRecord :=
        { tabId := tabId
          platform := detectPlatform tab.host
          duration := durationSeconds
          remaining := durationSeconds
          startTime := now
          status := .active
          pausedAt := none }
      let s := { s with
        engine := { s.engine with activeTimer := some t, intervalId := true, shouldBroadcast := true }
        store := { s.store with activeTimer := some t }
        alarms := { tick := true, expiry := some (now + durationSeconds * 1000) } }
      let s := broadcastTimerUpdate s now
      let s := { s with engine := { s.engine with shouldBroadcast := false } }
      (s, .ok t)

/-- `extendTimer` (timer-engine.js:395-417), with the extension already in
whole seconds.  Adds to both `remaining` and `duration` of the in-memory timer,
re-arms the one-shot expiry alarm at `now + remaining * 1000`, persists, and
broadcasts once. -/
def extendTimer (s : SysState) (now : Int) (additionalSeconds : Int) :
    SysState × Except String TimerRecord :=
  match s.engine.activeTimer with
  | none => (s, .error "No active timer to extend")
  | some t =>
    let t1 := { t with
      remaining := t.remaining + additionalSeconds
      duration := t.duration + additionalSeconds }
    let s := { s with
      engine := { s.engine with activeTimer := some t1 }
      alarms := { s.alarms with expiry := some (now + t1.remaining * 1000) } }
    let s := saveTimerState s
    let s := { s with engine := { s.engine with shouldBroadcast := true } }
    let s := broadcastTimerUpdate s now
    let s := { s with engine := { s.engine with shouldBroadcast := false } }
    (s, .ok t1)

/-- `pauseTimer` (timer-engine.js:419-446): errors when no timer, duplicate
pause returns the record unchanged, otherwise freezes the countdown, clears
interval and alarms, marks the record paused and persists it. -/
def pauseTimer (s : SysState) (now : Int) : SysState × Except String TimerRecord :=
  match s.engine.activeTimer with
  | none => (s, .error "No active timer to pause")
  | some t =>
    if t.status = .paused then (s, .ok t)
    else
      let t1 := { t with status := .paused, pausedAt := some now }
      let s := { s with
        engine := { s.engine with activeTimer := some t1, intervalId := false }
        alarms := { tick := false, expiry := none } }
      let s := saveTimerState s
      let s := broadcastTimerUpdate s now
      (s, .ok t1)

/-- `resumeTimer` (timer-engine.js:448-471): errors when no timer, returns the
record unchanged when not paused, otherwise re-anchors `startTime` so elapsed
equals `duration - remaining`, re-arms both alarms and the countdown, and
persists. -/
def resumeTimer (s : SysState) (now : Int) : SysState × Except String TimerRecord :=
  match s.engine.activeTimer with
  | none => (s, .error "No active timer to resume")
  | some t =>
    if t.status ≠ .paused then (s, .ok t)
    else
      let t1 := { t with
        status := .active
        startTime := now - (t.duration - t.remaining) * 1000
        pausedAt := none }
      let s := { s with
        engine := { s.engine with activeTimer := some t1 }
        alarms := { tick := true, expiry := some (now + t1.remaining * 1000) } }
      let s := saveTimerState s
      let s := { s with engine := { s.engine with intervalId := true } }
      let s := broadcastTimerUpdate s now
      (s, .ok t1)

/-- Result of `getTimerStatus`: `{active:false}` or the active snapshot
object. -/
inductive TimerStatusResult where
  | inactive
  | snapshot (status : TStatus) (remaining : Int) (duration : Int) (platform : String)
      (tabId : Nat) (minutesRemaining : Int)
deriving Repr, DecidableEq

/-- `getTimerStatus` (timer-engine.js:473-523): always reads from storage;
paused records report their frozen `remaining`, active records recompute
`max(0, duration - elapsed)` from the wall clock.  It then returns
`{active:false}` when `remaining < 0` or when the engine holds no in-memory
timer (the guard at line 497); past that guard the in-memory branch on
`!this.activeTimer` (lines 501-504, the background `restoreTimer` trigger) is
unreachable, and the in-memory `remaining` is synced. -/
def getTimerStatus (s : SysState) (now : Int) : SysState × TimerStatusResult :=
  match s.store.activeTimer with
  | none => (s, .inactive)
  | some saved =>
    let remaining : Int :=
      if saved.status = .paused then saved.remaining
      else max 0 (saved.duration - (now - saved.startTime) / 1000)
    if remaining < 0 ∨ s.engine.activeTimer = none then (s, .inactive)
    else
      let s1 :=
        match s.engine.activeTimer with
        | none => s
        | some t =>
          { s with engine := { s.engine with activeTimer := some { t with remaining := remaining } } }
      (s1, .snapshot saved.status remaining saved.duration saved.platform saved.tabId
        (-((-remaining) / 60)))

/-- `syncTimerState` (timer-engine.js:174-202): skipped while expiring or while
the countdown interval runs; otherwise reconciles the in-memory timer from the
store, expiring when the recomputed remaining time is non-positive. -/
def syncTimerState (s : SysState) (now : Int) : SysState :=
  if s.engine.isExpiring || s.engine.intervalId then s
  else
    match s.store.activeTimer with
    | none => cleanup s
    | some saved =>
      if saved.status ≠ .active then cleanup s
      else
        let elapsed := (now - saved.startTime) / 1000
        let remaining := saved.duration - elapsed
        if remaining ≤ 0 then
          onTimerExpire
            { s with engine := { s.engine with activeTimer := some { saved with remaining := 0 } } }
            now
        else
          let s1 := { s with engine :=
            { s.engine with activeTimer := some { saved with remaining := remaining } } }
          let s2 :=
            if saved.status ≠ .paused && !s1.engine.intervalId then
              { s1 with engine := { s1.engine with intervalId := true } }
            else s1
          broadcastTimerUpdate s2 now

/-- The two timer alarm names. -/
inductive AlarmName where
  | tickAlarm
  | expiryAlarm
deriving Repr, DecidableEq

/-- `handleAlarm` (timer-engine.js:162-172). -/
def handleAlarm (s : SysState) (now : Int) : AlarmName → SysState
  | .tickAlarm => if s.engine.isExpiring then s else syncTimerState s now
  | .expiryAlarm => checkAndExpireIfNeeded s now

/-- `restoreTimer` (timer-engine.js:639-699): wake-time state recovery.  Skips
when a timer is already resident, expiring or restoring; drops the record when
its tab is gone; expires through `checkAndExpireIfNeeded` when the recomputed
remaining time is non-positive; otherwise re-arms everything and resumes the
countdown. -/
def restoreTimer (s : SysState) (now : Int) : SysState × Option TimerRecord :=
  if s.engine.activeTimer.isSome || s.engine.isExpiring || s.engine.isRestoring then
    (s, s.engine.activeTimer)
  else
    match s.store.activeTimer with
    | none => (s, none)
    | some saved =>
      if saved.status ≠ .active then (s, none)
      else
        match tabGet s saved.tabId with
        | none => (finalCleanup s, none)
        | some _ =>
          let elapsed := (now - saved.startTime) / 1000
          let remaining := saved.duration - elapsed
          if remaining ≤ 0 then
            let s1 := { s with engine :=
              { s.engine with isRestoring := true, activeTimer := some { saved with remaining := 0 } } }
            let s2 := checkAndExpireIfNeeded s1 now
            ({ s2 with engine := { s2.engine with isRestoring := false } }, none)
          else
            let t1 := { saved with remaining := remaining }
            let s1 := { s with
              engine := { s.engine with
                isRestoring := true
                activeTimer := some t1
                intervalId := true
                shouldBroadcast := true }
              alarms := { tick := true, expiry := some (now + remaining * 1000) } }
            let s2 := broadcastTimerUpdate s1 now
            let s3 := { s2 with engine :=
              { s2.engine with shouldBroadcast := false, isRestoring := false } }
            (s3, some t1)

/-- The `chrome.tabs.onRemoved` listener installed by the constructor
(timer-engine.js:46-53): remove the tab; if it was the timer's tab, stop. -/
def tabRemoved (s : SysState) (tabId : Nat) : SysState :=
  let s := { s with tabs := s.tabs.filter (fun tab => tab.id ≠ tabId) }
  match s.engine.activeTimer with
  | some t => if t.tabId = tabId then stopTimer s else s
  | none => s

/-- A host-initiated process restart: all in-memory engine state is reset to
the constructor values (and any pending in-process timeout dies with the
process), while the durable store, the chrome alarms and the tabs survive. -/
def processRestart (s : SysState) : SysState :=
  { s with engine := engineInit }

/-- Initial system state: a freshly constructed engine over an empty store. -/
def initState (tabs : List Tab) (settings : Option Settings) : SysState :=
  { engine := engineInit
    store := { activeTimer := none, lastTimer := none, settings := settings }
    alarms := { tick := false, expiry := none }
    tabs := tabs
    pauseCount := 0
    notifyCount := 0 }

/-! Projection lemmas: the broadcast / persistence helpers leave the parts of
the state they do not mention untouched. -/

theorem broadcastTimerUpdate_store (s : SysState) (now : Int) :
    (broadcastTimerUpdate s now).store = s.store := by
  unfold broadcastTimerUpdate; split <;> [rfl; split <;> [rfl; split <;> rfl]]

theorem broadcastTimerUpdate_tabs (s : SysState) (now : Int) :
    (broadcastTimerUpdate s now).tabs = s.tabs := by
  unfold broadcastTimerUpdate; split <;> [rfl; split <;> [rfl; split <;> rfl]]

theorem broadcastTimerUpdate_alarms (s : SysState) (now : Int) :
    (broadcastTimerUpdate s now).alarms = s.alarms := by
  unfold broadcastTimerUpdate; split <;> [rfl; split <;> [rfl; split <;> rfl]]

theorem broadcastTimerUpdate_pauseCount (s : SysState) (now : Int) :
    (broadcastTimerUpdate s now).pauseCount = s.pauseCount := by
  unfold broadcastTimerUpdate; split <;> [rfl; split <;> [rfl; split <;> rfl]]

theorem broadcastTimerUpdate_notifyCount (s : SysState) (now : Int) :
    (broadcastTimerUpdate s now).notifyCount = s.notifyCount := by
  unfold broadcastTimerUpdate; split <;> [rfl; split <;> [rfl; split <;> rfl]]

theorem broadcastTimerUpdate_activeTimer (s : SysState) (now : Int) :
    (broadcastTimerUpdate s now).engine.activeTimer = s.engine.activeTimer := by
  unfold broadcastTimerUpdate; split <;> [rfl; split <;> [rfl; split <;> rfl]]

theorem broadcastTimerUpdate_intervalId (s : SysState) (now : Int) :
    (broadcastTimerUpdate s now).engine.intervalId = s.engine.intervalId := by
  unfold broadcastTimerUpdate; split <;> [rfl; split <;> [rfl; split <;> rfl]]

theorem broadcastTimerUpdate_isExpiring (s : SysState) (now : Int) :
    (broadcastTimerUpdate s now).engine.isExpiring = s.engine.isExpiring := by
  unfold broadcastTimerUpdate; split <;> [rfl; split <;> [rfl; split <;> rfl]]

theorem saveTimerState_engine (s : SysState) :
    (saveTimerState s).engine = s.engine := by
  unfold saveTimerState; split <;> rfl

theorem saveTimerState_tabs (s : SysState) :
    (saveTimerState s).tabs = s.tabs := by
  unfold saveTimerState; split <;> rfl

theorem saveTimerState_alarms (s : SysState) :
    (saveTimerState s).alarms = s.alarms := by
  unfold saveTimerState; split <;> rfl

theorem saveTimerState_pauseCount (s : SysState) :
    (saveTimerState s).pauseCount = s.pauseCount := by
  unfold saveTimerState; split <;> rfl

theorem saveTimerState_notifyCount (s : SysState) :
    (saveTimerState s).notifyCount = s.notifyCount := by
  unfold saveTimerState; split <;> rfl

theorem saveLastTimerInfo_engine (s : SysState) (now : Int) :
    (saveLastTimerInfo s now).engine = s.engine := by
  unfold saveLastTimerInfo; split <;> [rfl; split <;> rfl]

theorem saveLastTimerInfo_activeRecord (s : SysState) (now : Int) :
    (saveLastTimerInfo s now).store.activeTimer = s.store.activeTimer := by
  unfold saveLastTimerInfo; split <;> [rfl; split <;> rfl]

theorem saveLastTimerInfo_settings (s : SysState) (now : Int) :
    (saveLastTimerInfo s now).store.settings = s.store.settings := by
  unfold saveLastTimerInfo; split <;> [rfl; split <;> rfl]

theorem saveLastTimerInfo_tabs (s : SysState) (now : Int) :
    (saveLastTimerInfo s now).tabs = s.tabs := by
  unfold saveLastTimerInfo; split <;> [rfl; split <;> rfl]

theorem saveLastTimerInfo_alarms (s : SysState) (now : Int) :
    (saveLastTimerInfo s now).alarms = s.alarms := by
  unfold saveLastTimerInfo; split <;> [rfl; split <;> rfl]

theorem saveLastTimerInfo_pauseCount (s : SysState) (now : Int) :
    (saveLastTimerInfo s now).pauseCount = s.pauseCount := by
  unfold saveLastTimerInfo; split <;> [rfl; split <;> rfl]

theorem saveLastTimerInfo_notifyCount (s : SysState) (now : Int) :
    (saveLastTimerInfo s now).notifyCount = s.notifyCount := by
  unfold saveLastTimerInfo; split <;> [rfl; split <;> rfl]

theorem showExpiryNotification_engine (s : SysState) :
    (showExpiryNotification s).engine = s.engine := by
  unfold showExpiryNotification; split <;> rfl

theorem showExpiryNotification_store (s : SysState) :
    (showExpiryNotification s).store = s.store := by
  unfold showExpiryNotification; split <;> rfl

theorem showExpiryNotification_tabs (s : SysState) :
    (showExpiryNotification s).tabs = s.tabs := by
  unfold showExpiryNotification; split <;> rfl

theorem showExpiryNotification_alarms (s : SysState) :
    (showExpiryNotification s).alarms = s.alarms := by
  unfold showExpiryNotification; split <;> rfl

theorem showExpiryNotification_pauseCount (s : SysState) :
    (showExpiryNotification s).pauseCount = s.pauseCount := by
  unfold showExpiryNotification; split <;> rfl

theorem showExpiryNotification_notify_on (s : SysState)
    (h : (getSettings s).showNotifications = true) :
    (showExpiryNotification s).notifyCount = s.notifyCount + 1 := by
  unfold showExpiryNotification; rw [h]; simp

theorem onTimerExpire_dedup_skip (s : SysState) (now : Int)
    (h : now - s.engine.lastExpirationTime < 5000) :
    onTimerExpire s now = s := by
  unfold onTimerExpire; rw [if_pos h]

theorem onTimerExpire_fires (s : SysState) (now : Int) (t : TimerRecord)
    (ht : s.engine.activeTimer = some t)
    (hlock : s.engine.expirationLock = false)
    (hexp : s.engine.isExpiring = false)
    (hded : 5000 ≤ now - s.engine.lastExpirationTime)
    (htab : (tabGet s t.tabId).isSome = true)
    (hnot : (getSettings s).showNotifications = true) :
    (onTimerExpire s now).pauseCount = s.pauseCount + 1 ∧
    (onTimerExpire s now).notifyCount = s.notifyCount + 1 ∧
    (onTimerExpire s now).engine.isExpiring = true ∧
    (onTimerExpire s now).engine.activeTimer = some t ∧
    (onTimerExpire s now).engine.pendingFinalCleanup = true ∧
    (onTimerExpire s now).engine.intervalId = false ∧
    (onTimerExpire s now).alarms = { tick := false, expiry := none } ∧
    (onTimerExpire s now).store.activeTimer = s.store.activeTimer ∧
    (onTimerExpire s now).tabs = s.tabs := by
  have h5 : ¬ (now - s.engine.lastExpirationTime < 5000) := by omega
  have htab' : (s.tabs.find? (fun tab => tab.id == t.tabId)).isSome = true := htab
  have hnot' : ((saveLastTimerInfo s now).store.settings.getD
      { showNotifications := true, showOverlay := true, defaultTimer := 30 }).showNotifications
      = true := by
    rw [saveLastTimerInfo_settings]; exact hnot
  unfold onTimerExpire
  rw [if_neg h5]
  simp only [ht, hlock, hexp, Bool.or_self, Bool.false_eq_true, if_false, tabGet,
    showExpiryNotification, getSettings,
    saveLastTimerInfo_engine, saveLastTimerInfo_activeRecord, saveLastTimerInfo_settings,
    saveLastTimerInfo_tabs, saveLastTimerInfo_alarms, saveLastTimerInfo_pauseCount,
    saveLastTimerInfo_notifyCount]
  have hnotG : (s.store.settings.getD
      { showNotifications := true, showOverlay := true, defaultTimer := 30 }).showNotifications
      = true := hnot
  simp only [htab', if_true, hnotG]
  simp [saveLastTimerInfo_engine, saveLastTimerInfo_tabs, saveLastTimerInfo_activeRecord,
    saveLastTimerInfo_pauseCount, saveLastTimerInfo_notifyCount, saveLastTimerInfo_alarms]

theorem checkAndExpireIfNeeded_none (s : SysState) (now : Int)
    (h : s.engine.activeTimer = none) :
    checkAndExpireIfNeeded s now = s := by
  unfold checkAndExpireIfNeeded; rw [h]

theorem checkAndExpireIfNeeded_of_isExpiring (s : SysState) (now : Int)
    (h : s.engine.isExpiring = true) :
    checkAndExpireIfNeeded s now = s := by
  unfold checkAndExpireIfNeeded
  cases hA : s.engine.activeTimer with
  | none => rfl
  | some t => simp [h]

theorem checkAndExpireIfNeeded_not_due (s : SysState) (now : Int) (t : TimerRecord)
    (ht : s.engine.activeTimer = some t)
    (hnd : 0 < t.duration - (now - t.startTime) / 1000) :
    checkAndExpireIfNeeded s now = s := by
  unfold checkAndExpireIfNeeded
  rw [ht]
  cases hE : s.engine.isExpiring with
  | true => simp [hE]
  | false =>
    simp only [hE, Bool.false_eq_true, if_false]
    rw [if_neg (by omega)]

theorem checkAndExpireIfNeeded_fires (s : SysState) (now : Int) (t : TimerRecord)
    (ht : s.engine.activeTimer = some t)
    (hexp : s.engine.isExpiring = false)
    (hdue : t.duration - (now - t.startTime) / 1000 ≤ 0)
    (hlock : s.engine.expirationLock = false)
    (hded : 5000 ≤ now - s.engine.lastExpirationTime)
    (htab : (tabGet s t.tabId).isSome = true)
    (hnot : (getSettings s).showNotifications = true) :
    (checkAndExpireIfNeeded s now).pauseCount = s.pauseCount + 1 ∧
    (checkAndExpireIfNeeded s now).notifyCount = s.notifyCount + 1 ∧
    (checkAndExpireIfNeeded s now).engine.isExpiring = true ∧
    (checkAndExpireIfNeeded s now).engine.activeTimer = some { t with remaining := 0 } ∧
    (checkAndExpireIfNeeded s now).engine.pendingFinalCleanup = true ∧
    (checkAndExpireIfNeeded s now).engine.intervalId = false ∧
    (checkAndExpireIfNeeded s now).alarms = { tick := false, expiry := none } ∧
    (checkAndExpireIfNeeded s now).store.activeTimer = s.store.activeTimer ∧
    (checkAndExpireIfNeeded s now).tabs = s.tabs := by
  have hC : checkAndExpireIfNeeded s now =
      onTimerExpire
        { s with engine := { s.engine with activeTimer := some { t with remaining := 0 } } } now := by
    unfold checkAndExpireIfNeeded
    rw [ht]
    simp only [hexp, Bool.false_eq_true, if_false]
    rw [if_pos hdue]
  rw [hC]
  exact onTimerExpire_fires _ now { t with remaining := 0 } rfl hlock hexp hded htab hnot

/-! Concrete fixtures used by the claim theorems. -/

/-- A YouTube tab used by the concrete scenarios. -/
def ytTab : Tab := { id := 7, host := "www.youtube.com" }

/-- Tab list used by the concrete scenarios. -/
def demoTabs : List Tab := [ytTab]

/-- Freshly installed system: constructor-initialized engine over an empty store. -/
def baseState : SysState := initState demoTabs none

/-- An active timer resident in the engine together with its persisted copy. -/
def residentTimer : TimerRecord :=
  { tabId := 7, platform := "youtube", duration := 40, remaining := 30, startTime := 990000,
    status := .active, pausedAt := none }

/-- System state with `residentTimer` resident and persisted, countdown armed. -/
def residentState : SysState :=
  { engine :=
      { engineInit with
        activeTimer := some residentTimer
        intervalId := true
        shouldBroadcast := false }
    store := { activeTimer := some residentTimer, lastTimer := none, settings := none }
    alarms := { tick := true, expiry := some 1030000 }
    tabs := demoTabs
    pauseCount := 0
    notifyCount := 0 }

/-- C9 counterexample: with no timer anywhere, `resumeTimer` returns the
`NoActiveTimer` error to its caller (instead of being swallowed as a no-op as
the claim states); the state is unchanged. -/
theorem c9_resume_error_counterexample :
    (resumeTimer baseState 1000000).2 = Except.error "No active timer to resume" ∧
    (resumeTimer baseState 1000000).1 = baseState := ⟨rfl, rfl⟩

/-- C9 (amended): when no timer exists, `resume()` surfaces the `NoActiveTimer`
error exactly as `pause()` and `extend()` do, leaving the state unchanged; the
swallowed no-op case of `resume()` is a timer that exists but is not paused,
which is returned unchanged without error. -/
theorem c9_amended (s : SysState) (now n : Int) :
    (s.engine.activeTimer = none →
      resumeTimer s now = (s, Except.error "No active timer to resume") ∧
      pauseTimer s now = (s, Except.error "No active timer to pause") ∧
      extendTimer s now n = (s, Except.error "No active timer to extend")) ∧
    (∀ t, s.engine.activeTimer = some t → t.status ≠ TStatus.paused →
      resumeTimer s now = (s, Except.ok t)) := by
  constructor
  · intro h
    refine ⟨?_, ?_, ?_⟩
    · simp [resumeTimer, h]
    · simp [pauseTimer, h]
    · simp [extendTimer, h]
  · intro t ht hst
    simp [resumeTimer, ht, hst]

/-- Witness for `c9_amended`. -/
theorem c9_witness :
    resumeTimer baseState 5 = (baseState, Except.error "No active timer to resume") ∧
    resumeTimer residentState 5 = (residentState, Except.ok residentTimer) :=
  ⟨((c9_amended baseState 5 600).1 rfl).1,
   (c9_amended residentState 5 600).2 residentTimer (by rfl) (by decide)⟩

/-- Persisted active record with 90 s of recomputed remaining time at
`now = 1000000`, with no engine-resident timer (fresh process instance). -/
def unrestoredState : SysState :=
  { engine := engineInit
    store :=
      { activeTimer := some
          { tabId := 7, platform := "youtube", duration := 100, remaining := 100,
            startTime := 990000, status := .active, pausedAt := none }
        lastTimer := none
        settings := none }
    alarms := { tick := true, expiry := some 1090000 }
    tabs := demoTabs
    pauseCount := 0
    notifyCount := 0 }

/-- C2: evaluation of `getTimerStatus` at the failing input.  The store holds
an `active` record whose wall-clock-recomputed remaining time is 90 > 0, yet
with no engine-resident timer the guard `remaining < 0 || !this.activeTimer`
(timer-engine.js:497) returns the inactive result, contradicting the claim
(and the code's own comment); the lazy-restoration branch behind it is
unreachable. -/
theorem c2_status_inactive_without_resident_engine :
    unrestoredState.engine.activeTimer = none ∧
    (∃ t, unrestoredState.store.activeTimer = some t ∧ t.status = TStatus.active ∧
        t.duration - (1000000 - t.startTime) / 1000 = 90) ∧
    (getTimerStatus unrestoredState 1000000).2 = TimerStatusResult.inactive := by
  refine ⟨rfl, ⟨_, rfl, rfl, by decide⟩, rfl⟩

/-- A paused record whose stale `startTime` makes elapsed wall-clock time
(50 s) exceed its duration (40 s), resident in memory and persisted. -/
def stalePausedTimer : TimerRecord :=
  { tabId := 7, platform := "youtube", duration := 40, remaining := 20, startTime := 950000,
    status := .paused, pausedAt := some 970000 }

/-- System state holding `stalePausedTimer` with all expiration flags clear. -/
def stalePausedState : SysState :=
  { engine := { engineInit with activeTimer := some stalePausedTimer }
    store := { activeTimer := some stalePausedTimer, lastTimer := none, settings := none }
    alarms := { tick := false, expiry := none }
    tabs := demoTabs
    pauseCount := 0
    notifyCount := 0 }

/-- C5 counterexample: `checkAndExpireIfNeeded` does not inspect `status`, so
on a record with `status = paused` whose stale `startTime` makes the recomputed
remaining time non-positive it runs the expiration side effects (one pause-port
and one notify-port invocation), contradicting the claim. -/
theorem c5_paused_record_expires_counterexample :
    stalePausedTimer.status = TStatus.paused ∧
    stalePausedTimer.duration - (1000000 - stalePausedTimer.startTime) / 1000 ≤ 0 ∧
    (checkAndExpireIfNeeded stalePausedState 1000000).pauseCount = 1 ∧
    (checkAndExpireIfNeeded stalePausedState 1000000).notifyCount = 1 := by
  exact ⟨rfl, by decide, rfl, rfl⟩

/-- C5 (amended): the expiration check is a strict no-op when no in-memory
timer record exists, but it does not check `status`: for any record — in
particular a paused one — whose recomputed remaining time is non-positive,
with the guards clear it runs the pause/notify side effects. -/
theorem c5_amended (s : SysState) (now : Int) :
    (s.engine.activeTimer = none → checkAndExpireIfNeeded s now = s) ∧
    (∀ t, s.engine.activeTimer = some t → t.status = TStatus.paused →
      t.duration - (now - t.startTime) / 1000 ≤ 0 →
      s.engine.isExpiring = false → s.engine.expirationLock = false →
      5000 ≤ now - s.engine.lastExpirationTime →
      (tabGet s t.tabId).isSome = true → (getSettings s).showNotifications = true →
      (checkAndExpireIfNeeded s now).pauseCount = s.pauseCount + 1 ∧
      (checkAndExpireIfNeeded s now).notifyCount = s.notifyCount + 1) := by
  refine ⟨fun h => checkAndExpireIfNeeded_none s now h, ?_⟩
  intro t ht _ hdue hexp hlock hded htab hnot
  obtain ⟨h1, h2, -⟩ := checkAndExpireIfNeeded_fires s now t ht hexp hdue hlock hded htab hnot
  exact ⟨h1, h2⟩

/-- Witness for `c5_amended`. -/
theorem c5_witness :
    checkAndExpireIfNeeded baseState 1000000 = baseState ∧
    (checkAndExpireIfNeeded stalePausedState 1000000).pauseCount = 1 :=
  ⟨(c5_amended baseState 1000000).1 (by rfl),
   ((c5_amended stalePausedState 1000000).2 stalePausedTimer (by rfl) (by rfl) (by decide)
      (by rfl) (by rfl) (by decide) (by decide) (by decide)).1⟩

/-- First process run: a 60 s timer started at 940000 whose expiry alarm is
handled at 1000000, running the expiration side effects once; the deferred
final cleanup has not yet fired, so the record is still persisted. -/
def firstRunState : SysState :=
  checkAndExpireIfNeeded (startTimer baseState 940000 60 7).1 1000000

/-- C1 counterexample: in the first run the side effects fire at 1000000 and
the dedup mark is taken (`lastExpirationTime = 1000000`).  After a process
restart the mark is back to its constructor value 0 — it was never written to
the store — so an expiration pass at 1002000, well inside the 5 s dedup
window, runs the pause/notify side effects a second time instead of skipping
them. -/
theorem c1_counterexample :
    firstRunState.pauseCount = 1 ∧
    firstRunState.notifyCount = 1 ∧
    firstRunState.engine.lastExpirationTime = 1000000 ∧
    firstRunState.store.activeTimer.isSome = true ∧
    (processRestart firstRunState).engine.lastExpirationTime = 0 ∧
    (restoreTimer (processRestart firstRunState) 1002000).1.pauseCount = 2 ∧
    (restoreTimer (processRestart firstRunState) 1002000).1.notifyCount = 2 := by
  exact ⟨rfl, rfl, rfl, rfl, rfl, rfl, rfl⟩

/-- C1 (amended): the dedup timestamp is the in-memory `lastExpirationTime`
field only.  Within one live process instance an expiration invocation inside
the 5 s window is skipped entirely (no side effects, no state change), but a
process restart resets the field to 0 while leaving the Durable Store
untouched — no dedup key is persisted — so the window does not survive
restarts. -/
theorem c1_amended (s : SysState) (now : Int) :
    (now - s.engine.lastExpirationTime < 5000 → onTimerExpire s now = s) ∧
    (now - s.engine.lastExpirationTime < 5000 →
      (checkAndExpireIfNeeded s now).pauseCount = s.pauseCount ∧
      (checkAndExpireIfNeeded s now).notifyCount = s.notifyCount) ∧
    (processRestart s).engine.lastExpirationTime = 0 ∧
    (processRestart s).store = s.store := by
  refine ⟨fun h => onTimerExpire_dedup_skip s now h, fun h => ?_, rfl, rfl⟩
  unfold checkAndExpireIfNeeded
  cases hA : s.engine.activeTimer with
  | none => exact ⟨rfl, rfl⟩
  | some t =>
    cases hE : s.engine.isExpiring with
    | true => simp [hE]
    | false =>
      simp only [hE, Bool.false_eq_true, if_false]
      by_cases hdue : t.duration - (now - t.startTime) / 1000 ≤ 0
      · rw [if_pos hdue, onTimerExpire_dedup_skip]
        · exact ⟨rfl, rfl⟩
        · exact h
      · rw [if_neg hdue]
        exact ⟨rfl, rfl⟩

/-- Witness for `c1_amended`. -/
theorem c1_witness :
    onTimerExpire residentState 1000 = residentState ∧
    (processRestart residentState).engine.lastExpirationTime = 0 :=
  ⟨(c1_amended residentState 1000).1 (by decide), (c1_amended residentState 1000).2.2.1⟩

/-- Repeated invocations of the centralized expiration check
(`checkAndExpireIfNeeded`, the `maybeExpire` path) at the given times, with no
other event in between. -/
def expireSeq (s : SysState) : List Int → SysState
  | [] => s
  | τ :: rest => expireSeq (checkAndExpireIfNeeded s τ) rest

theorem expireSeq_of_isExpiring (s : SysState) (ts : List Int)
    (h : s.engine.isExpiring = true) :
    expireSeq s ts = s := by
  induction ts with
  | nil => rfl
  | cons τ rest ih =>
    show expireSeq (checkAndExpireIfNeeded s τ) rest = s
    rw [checkAndExpireIfNeeded_of_isExpiring s τ h]
    exact ih

/-- C3: on a due active timer with the guards clear, N = 1 + |times|
invocations of the expiration path in immediate succession within one live
process instance invoke the pause port exactly once and the notify port
exactly once; the redundant invocations change nothing. -/
theorem c3_maybe_expire_idempotent (s : SysState) (t : TimerRecord) (t1 : Int)
    (times : List Int)
    (ht : s.engine.activeTimer = some t) (_hact : t.status = TStatus.active)
    (hdue : t.duration - (t1 - t.startTime) / 1000 ≤ 0)
    (hexp : s.engine.isExpiring = false) (hlock : s.engine.expirationLock = false)
    (hded : 5000 ≤ t1 - s.engine.lastExpirationTime)
    (htab : (tabGet s t.tabId).isSome = true)
    (hnot : (getSettings s).showNotifications = true)
    (_himm : ∀ τ ∈ times, t1 ≤ τ ∧ τ - t1 < 5000) :
    (expireSeq s (t1 :: times)).pauseCount = s.pauseCount + 1 ∧
    (expireSeq s (t1 :: times)).notifyCount = s.notifyCount + 1 := by
  obtain ⟨h1, h2, h3, -⟩ := checkAndExpireIfNeeded_fires s t1 t ht hexp hdue hlock hded htab hnot
  show (expireSeq (checkAndExpireIfNeeded s t1) times).pauseCount = _ ∧
    (expireSeq (checkAndExpireIfNeeded s t1) times).notifyCount = _
  rw [expireSeq_of_isExpiring _ times h3]
  exact ⟨h1, h2⟩

/-- A persisted-and-resident active timer that is due: started at 940000 for
60 s, observed at and after 1000000. -/
def dueActiveState : SysState := (startTimer baseState 940000 60 7).1

/-- Witness for `c3_maybe_expire_idempotent`: three back-to-back invocations
(the triple-wake race) on a due timer yield exactly one pause and one
notification. -/
theorem c3_witness :
    (expireSeq dueActiveState [1000000, 1000001, 1000002]).pauseCount = 1 ∧
    (expireSeq dueActiveState [1000000, 1000001, 1000002]).notifyCount = 1 :=
  c3_maybe_expire_idempotent dueActiveState _ 1000000 [1000001, 1000002]
    (by rfl) (by rfl) (by decide) (by rfl) (by rfl) (by decide) (by decide) (by decide)
    (by decide)

theorem tabGet_congr (s s' : SysState) (i : Nat) (h : s.tabs = s'.tabs) :
    tabGet s i = tabGet s' i := by
  unfold tabGet; rw [h]

theorem finalCleanupTimeout_clears (s : SysState) (h : s.engine.pendingFinalCleanup = true) :
    (finalCleanupTimeout s).store.activeTimer = none := by
  unfold finalCleanupTimeout finalCleanup
  simp [h]

/-- C4: on a brand-new process instance (constructor-fresh engine), restoring
a persisted `active` record whose deadline has already passed immediately runs
the expiration path — one pause-port call, one notify-port call, no countdown
resumed, cleanup scheduled — and the deferred cleanup then deletes the
record. -/
theorem c4_restore_expired_triggers_expiration (s : SysState) (now : Int) (rec : TimerRecord)
    (heng : s.engine = engineInit)
    (hrec : s.store.activeTimer = some rec) (hact : rec.status = TStatus.active)
    (htab : (tabGet s rec.tabId).isSome = true)
    (hnot : (getSettings s).showNotifications = true)
    (hdue : rec.duration - (now - rec.startTime) / 1000 ≤ 0)
    (hnow : 5000 ≤ now) :
    (restoreTimer s now).2 = none ∧
    (restoreTimer s now).1.pauseCount = s.pauseCount + 1 ∧
    (restoreTimer s now).1.notifyCount = s.notifyCount + 1 ∧
    (restoreTimer s now).1.engine.intervalId = false ∧
    (restoreTimer s now).1.engine.pendingFinalCleanup = true ∧
    (finalCleanupTimeout (restoreTimer s now).1).store.activeTimer = none := by
  have hA : s.engine.activeTimer = none := by rw [heng]; rfl
  have hE : s.engine.isExpiring = false := by rw [heng]; rfl
  have hR : s.engine.isRestoring = false := by rw [heng]; rfl
  have hL : s.engine.expirationLock = false := by rw [heng]; rfl
  have hT : s.engine.lastExpirationTime = 0 := by rw [heng]; rfl
  have hded : 5000 ≤ now - s.engine.lastExpirationTime := by rw [hT]; omega
  obtain ⟨tb, htb⟩ := Option.isSome_iff_exists.mp htab
  obtain ⟨p1, p2, p3, p4, p5, p6, p7, p8, p9⟩ :=
    checkAndExpireIfNeeded_fires
      { s with engine :=
          { s.engine with
            isRestoring := true
            activeTimer := some { rec with remaining := 0 } } }
      now { rec with remaining := 0 } rfl hE hdue hL hded htab hnot
  unfold restoreTimer
  rw [if_neg (by simp [hA, hE, hR])]
  simp only [hrec]
  rw [if_neg (fun hh => hh hact)]
  simp only [htb]
  rw [if_pos hdue]
  exact ⟨rfl, p1, p2, p6, p5, finalCleanupTimeout_clears _ p5⟩

/-- Persisted active record matching the spec's durability example: started
50 s ago with a 40 s duration, seen by a constructor-fresh process at
`now = 1000000`. -/
def overdueStoredState : SysState :=
  { engine := engineInit
    store :=
      { activeTimer := some
          { tabId := 7, platform := "youtube", duration := 40, remaining := 40,
            startTime := 950000, status := .active, pausedAt := none }
        lastTimer := none
        settings := none }
    alarms := { tick := true, expiry := some 990000 }
    tabs := demoTabs
    pauseCount := 0
    notifyCount := 0 }

/-- Witness for `c4_restore_expired_triggers_expiration` at the spec's
example input (remaining = 40 - 50 < 0). -/
theorem c4_witness :
    (restoreTimer overdueStoredState 1000000).1.pauseCount = 1 ∧
    (finalCleanupTimeout (restoreTimer overdueStoredState 1000000).1).store.activeTimer
      = none := by
  obtain ⟨-, h2, -, -, -, h6⟩ :=
    c4_restore_expired_triggers_expiration overdueStoredState 1000000 _ rfl rfl rfl
      (by decide) (by decide) (by decide) (by decide)
  exact ⟨h2, h6⟩

theorem startTimer_ok (s : SysState) (now d : Int) (i : Nat) (tb : Tab)
    (hd1 : 1 ≤ d) (hd2 : d ≤ 86400) (htab : tabGet s i = some tb) :
    (startTimer s now d i).2 = Except.ok
      { tabId := i, platform := detectPlatform tb.host, duration := d, remaining := d,
        startTime := now, status := .active, pausedAt := none } ∧
    ((startTimer s now d i).1).store.activeTimer = some
      { tabId := i, platform := detectPlatform tb.host, duration := d, remaining := d,
        startTime := now, status := .active, pausedAt := none } ∧
    ((startTimer s now d i).1).engine.activeTimer = some
      { tabId := i, platform := detectPlatform tb.host, duration := d, remaining := d,
        startTime := now, status := .active, pausedAt := none } ∧
    ((startTimer s now d i).1).alarms = { tick := true, expiry := some (now + d * 1000) } ∧
    ((startTimer s now d i).1).tabs = s.tabs := by
  unfold startTimer
  rw [if_neg (by simp; omega)]
  simp only [htab]
  refine ⟨?_, ?_, ?_, ?_, ?_⟩ <;>
    simp [stopTimer, cleanup, finalCleanup, broadcastTimerUpdate_store,
      broadcastTimerUpdate_alarms, broadcastTimerUpdate_activeTimer, broadcastTimerUpdate_tabs]

/-- C7: `start(A)` followed by `start(B)`: the second start disarms and
deletes A's state before persisting B's record, so afterwards the single
storage slot holds exactly the record for B's tab (and the engine cache and
the armed wakes agree with it). -/
theorem c7_single_slot (s : SysState) (nowA nowB dA dB : Int) (tA tB : Nat) (tbA tbB : Tab)
    (hdA1 : 1 ≤ dA) (hdA2 : dA ≤ 86400) (hdB1 : 1 ≤ dB) (hdB2 : dB ≤ 86400)
    (htA : tabGet s tA = some tbA) (htB : tabGet s tB = some tbB) :
    ∃ rec,
      ((startTimer (startTimer s nowA dA tA).1 nowB dB tB).1).store.activeTimer = some rec ∧
      ((startTimer (startTimer s nowA dA tA).1 nowB dB tB).1).engine.activeTimer = some rec ∧
      rec.tabId = tB ∧ rec.duration = dB ∧ rec.startTime = nowB ∧ rec.status = TStatus.active ∧
      ((startTimer (startTimer s nowA dA tA).1 nowB dB tB).1).alarms
        = { tick := true, expiry := some (nowB + dB * 1000) } := by
  obtain ⟨-, -, -, -, htabs⟩ := startTimer_ok s nowA dA tA tbA hdA1 hdA2 htA
  have htB' : tabGet (startTimer s nowA dA tA).1 tB = some tbB := by
    rw [tabGet_congr _ s tB htabs]; exact htB
  obtain ⟨-, h2, h3, h4, -⟩ := startTimer_ok (startTimer s nowA dA tA).1 nowB dB tB tbB hdB1 hdB2 htB'
  exact ⟨_, h2, h3, rfl, rfl, rfl, rfl, h4⟩

/-- Witness for `c7_single_slot`. -/
theorem c7_witness :
    ∃ rec,
      ((startTimer (startTimer baseState 1000000 300 7).1 1000500 600 7).1).store.activeTimer
        = some rec ∧
      ((startTimer (startTimer baseState 1000000 300 7).1 1000500 600 7).1).engine.activeTimer
        = some rec ∧
      rec.tabId = 7 ∧ rec.duration = 600 ∧ rec.startTime = 1000500 ∧
      rec.status = TStatus.active ∧
      ((startTimer (startTimer baseState 1000000 300 7).1 1000500 600 7).1).alarms
        = { tick := true, expiry := some 1600500 } :=
  c7_single_slot baseState 1000000 1000500 300 600 7 7 ytTab ytTab
    (by decide) (by decide) (by decide) (by decide) (by decide) (by decide)

theorem extendTimer_some (s : SysState) (now n : Int) (t : TimerRecord)
    (ht : s.engine.activeTimer = some t) :
    (extendTimer s now n).2 = Except.ok
      { t with remaining := t.remaining + n, duration := t.duration + n } ∧
    (extendTimer s now n).1.engine.activeTimer = some
      { t with remaining := t.remaining + n, duration := t.duration + n } ∧
    (extendTimer s now n).1.store.activeTimer = some
      { t with remaining := t.remaining + n, duration := t.duration + n } ∧
    (extendTimer s now n).1.alarms.expiry = some (now + (t.remaining + n) * 1000) ∧
    (extendTimer s now n).1.alarms.tick = s.alarms.tick := by
  refine ⟨?_, ?_, ?_, ?_, ?_⟩ <;>
    simp [extendTimer, ht, saveTimerState, broadcastTimerUpdate_store,
      broadcastTimerUpdate_alarms, broadcastTimerUpdate_activeTimer]

theorem extendTimer_none (s : SysState) (now n : Int)
    (h : s.engine.activeTimer = none) :
    extendTimer s now n = (s, Except.error "No active timer to extend") := by
  simp [extendTimer, h]

/-- C8: `extend(n)` on an existing timer adds exactly `n` to both
`durationSeconds` and the current `remainingSeconds`, re-arms the one-shot
expiry wake at the new deadline `now + (remaining + n) s`, and persists the
updated record; when no timer exists it fails with the `NoActiveTimer`
error. -/
theorem c8_extend_arithmetic (s : SysState) (now n : Int) (_hn : 1 ≤ n) :
    (∀ t, s.engine.activeTimer = some t →
      (extendTimer s now n).2 = Except.ok
        { t with remaining := t.remaining + n, duration := t.duration + n } ∧
      (extendTimer s now n).1.engine.activeTimer = some
        { t with remaining := t.remaining + n, duration := t.duration + n } ∧
      (extendTimer s now n).1.store.activeTimer = some
        { t with remaining := t.remaining + n, duration := t.duration + n } ∧
      (extendTimer s now n).1.alarms.expiry = some (now + (t.remaining + n) * 1000) ∧
      (extendTimer s now n).1.alarms.tick = s.alarms.tick) ∧
    (s.engine.activeTimer = none →
      extendTimer s now n = (s, Except.error "No active timer to extend")) :=
  ⟨fun t ht => extendTimer_some s now n t ht, fun h => extendTimer_none s now n h⟩

/-- Witness for `c8_extend_arithmetic`: `start(30 s)` then `extend(10)` gives
`duration = 40` and `remaining = 40` (no time elapsed in between), with the
expiry wake pushed to the new deadline; on the empty state extend errors. -/
theorem c8_witness :
    (extendTimer (startTimer baseState 1000000 30 7).1 1000000 10).2 = Except.ok
      { tabId := 7, platform := "youtube", duration := 40, remaining := 40,
        startTime := 1000000, status := .active, pausedAt := none } ∧
    (extendTimer (startTimer baseState 1000000 30 7).1 1000000 10).1.alarms.expiry
      = some 1040000 ∧
    extendTimer baseState 1000000 10 = (baseState, Except.error "No active timer to extend") := by
  obtain ⟨e1, -, -, e4, -⟩ :=
    (c8_extend_arithmetic (startTimer baseState 1000000 30 7).1 1000000 10 (by decide)).1
      { tabId := 7, platform := "youtube", duration := 30, remaining := 30,
        startTime := 1000000, status := .active, pausedAt := none } (by rfl)
  refine ⟨e1, e4, ?_⟩
  exact (c8_extend_arithmetic baseState 1000000 10 (by decide)).2 (by rfl)

/-- C10: `extendTimer`'s only precondition is an existing timer, not an
active one.  On a paused timer it succeeds, adds `n` to duration and
remaining, leaves `status = paused` and `pausedAt` set, persists, and arms a
fresh one-shot expiry wake at `now + (remaining + n) s` — so a paused timer
can have an armed wake source after an extend. -/
theorem c10_extend_paused (s : SysState) (now n p : Int) (t : TimerRecord)
    (ht : s.engine.activeTimer = some t)
    (hst : t.status = TStatus.paused) (hpa : t.pausedAt = some p) (_hn : 1 ≤ n) :
    (extendTimer s now n).2 = Except.ok
      { t with remaining := t.remaining + n, duration := t.duration + n } ∧
    ({ t with remaining := t.remaining + n, duration := t.duration + n }).status
      = TStatus.paused ∧
    ({ t with remaining := t.remaining + n, duration := t.duration + n }).pausedAt = some p ∧
    (extendTimer s now n).1.store.activeTimer = some
      { t with remaining := t.remaining + n, duration := t.duration + n } ∧
    (extendTimer s now n).1.engine.activeTimer = some
      { t with remaining := t.remaining + n, duration := t.duration + n } ∧
    (extendTimer s now n).1.alarms.expiry = some (now + (t.remaining + n) * 1000) := by
  obtain ⟨e1, e2, e3, e4, -⟩ := extendTimer_some s now n t ht
  exact ⟨e1, hst, hpa, e3, e2, e4⟩

/-- A paused resident-and-persisted timer with 45 s frozen remaining time. -/
def pausedResidentTimer : TimerRecord :=
  { tabId := 7, platform := "youtube", duration := 60, remaining := 45, startTime := 980000,
    status := .paused, pausedAt := some 995000 }

/-- System state holding `pausedResidentTimer`, with all wakes disarmed as
`pauseTimer` leaves them. -/
def pausedResidentState : SysState :=
  { engine := { engineInit with activeTimer := some pausedResidentTimer }
    store := { activeTimer := some pausedResidentTimer, lastTimer := none, settings := none }
    alarms := { tick := false, expiry := none }
    tabs := demoTabs
    pauseCount := 0
    notifyCount := 0 }

/-- Witness for `c10_extend_paused`: extending the paused timer by 10 s arms
the expiry wake at `now + 55 s` even though all wakes were disarmed. -/
theorem c10_witness :
    pausedResidentState.alarms = { tick := false, expiry := none } ∧
    (extendTimer pausedResidentState 1000000 10).2 = Except.ok
      { pausedResidentTimer with remaining := 55, duration := 70 } ∧
    (extendTimer pausedResidentState 1000000 10).1.alarms.expiry = some 1055000 := by
  obtain ⟨e1, -, -, -, -, e6⟩ :=
    c10_extend_paused pausedResidentState 1000000 10 995000 pausedResidentTimer
      (by rfl) (by rfl) (by rfl) (by decide)
  exact ⟨rfl, e1, e6⟩

/-! The event-level transition system for the reachable-states invariant.
Each event is one atomic engine operation (matching the single-threaded
run-to-completion execution of the source), one platform callback, a process
restart, or a tab closure. -/

/-- Events that drive the system. -/
inductive Event where
  | evStart (durationSeconds : Int) (tabId : Nat)
  | evStop
  | evPause
  | evResume
  | evExtend (additionalSeconds : Int)
  | evStatus
  | evTick
  | evAlarmTick
  | evAlarmExpiry
  | evRestore
  | evExpireTimeout
  | evProcessRestart
  | evTabClosed (tabId : Nat)
deriving Repr, DecidableEq

/-- The state reached by one event at wall-clock time `now` (return values
dropped). -/
def stepEv (s : SysState) (now : Int) : Event → SysState
  | .evStart d i => (startTimer s now d i).1
  | .evStop => stopTimer s
  | .evPause => (pauseTimer s now).1
  | .evResume => (resumeTimer s now).1
  | .evExtend n => (extendTimer s now n).1
  | .evStatus => (getTimerStatus s now).1
  | .evTick => tick s now
  | .evAlarmTick => handleAlarm s now .tickAlarm
  | .evAlarmExpiry => handleAlarm s now .expiryAlarm
  | .evRestore => (restoreTimer s now).1
  | .evExpireTimeout => finalCleanupTimeout s
  | .evProcessRestart => processRestart s
  | .evTabClosed i => tabRemoved s i

/-- Event preconditions: the countdown callback only fires while the interval
is armed, and the extension amount is a validated non-negative number of
seconds (the service worker rejects negative inputs before they reach the
engine). -/
def permitted (s : SysState) : Event → Prop
  | .evTick => s.engine.intervalId = true
  | .evExtend n => 0 ≤ n
  | _ => True

/-- Reachability: some interleaving of events at non-decreasing wall-clock
times, starting from a fresh install.  The index is the time of the last
event. -/
inductive Reachable : SysState → Int → Prop where
  | init (tabs : List Tab) (settings : Option Settings) (T : Int) :
      Reachable (initState tabs settings) T
  | step {s : SysState} {T : Int} (now : Int) (e : Event) :
      Reachable s T → T ≤ now → permitted s e → Reachable (stepEv s now e) now

/-- The record bound of the claim: `0 ≤ remainingSeconds ≤ durationSeconds`. -/
def recOK (t : TimerRecord) : Prop := 0 ≤ t.remaining ∧ t.remaining ≤ t.duration

/-- The record's wall-clock deadline has passed at time `T`. -/
def wallClockDue (t : TimerRecord) (T : Int) : Prop :=
  t.duration ≤ (T - t.startTime) / 1000

/-- Inductive invariant at last-event time `T`: every stored or cached record
satisfies the bound and was anchored in the past; a cached `active` record
showing `remaining ≤ 0` while the countdown interval is armed is genuinely due
(so the next tick resets it to 0 rather than driving it negative); and the
cached record always agrees with the stored one on status, anchor and
duration. -/
def Inv (s : SysState) (T : Int) : Prop :=
  (∀ t, s.store.activeTimer = some t → recOK t ∧ t.startTime ≤ T) ∧
  (∀ t, s.engine.activeTimer = some t → recOK t ∧ t.startTime ≤ T) ∧
  (∀ t, s.engine.activeTimer = some t → s.engine.intervalId = true →
      t.status = TStatus.active → t.remaining ≤ 0 → wallClockDue t T) ∧
  (∀ te ts, s.engine.activeTimer = some te → s.store.activeTimer = some ts →
      te.status = ts.status ∧ te.startTime = ts.startTime ∧ te.duration = ts.duration)

theorem wallClockDue_mono {t : TimerRecord} {T T' : Int}
    (h : wallClockDue t T) (hle : T ≤ T') : wallClockDue t T' :=
  le_trans h (Int.ediv_le_ediv (by norm_num) (by omega))

/-- Invariant transfer: if a new state agrees with an invariant-satisfying one
on the stored record, the cached record, and (weakly) the armed interval, the
invariant carries over to any later time. -/
theorem Inv_transfer {s s' : SysState} {T T' : Int} (h : Inv s T) (hT : T ≤ T')
    (hst : s'.store.activeTimer = s.store.activeTimer)
    (hen : s'.engine.activeTimer = s.engine.activeTimer)
    (hint : s'.engine.intervalId = true → s.engine.intervalId = true) : Inv s' T' := by
  obtain ⟨h1, h2, h3, h4⟩ := h
  refine ⟨?_, ?_, ?_, ?_⟩
  · intro t ht
    obtain ⟨hb, hs⟩ := h1 t (by rw [← hst]; exact ht)
    exact ⟨hb, by omega⟩
  · intro t ht
    obtain ⟨hb, hs⟩ := h2 t (by rw [← hen]; exact ht)
    exact ⟨hb, by omega⟩
  · intro t ht hiv hsta hrem
    exact wallClockDue_mono (h3 t (by rw [← hen]; exact ht) (hint hiv) hsta hrem) hT
  · intro te ts hte hts
    exact h4 te ts (by rw [← hen]; exact hte) (by rw [← hst]; exact hts)

theorem Inv_mono {s : SysState} {T T' : Int} (h : Inv s T) (hT : T ≤ T') : Inv s T' :=
  Inv_transfer h hT rfl rfl (fun hh => hh)

theorem Inv_init (tabs : List Tab) (settings : Option Settings) (T : Int) :
    Inv (initState tabs settings) T := by
  refine ⟨?_, ?_, ?_, ?_⟩
  · intro t ht; simp [initState] at ht
  · intro t ht; simp [initState, engineInit] at ht
  · intro t ht; simp [initState, engineInit] at ht
  · intro te ts hte hts; simp [initState, engineInit] at hte

theorem Inv_none {s' : SysState} (T' : Int)
    (hst : s'.store.activeTimer = none) (hen : s'.engine.activeTimer = none) : Inv s' T' := by
  refine ⟨?_, ?_, ?_, ?_⟩
  · intro t ht; rw [hst] at ht; cases ht
  · intro t ht; rw [hen] at ht; cases ht
  · intro t ht; rw [hen] at ht; cases ht
  · intro te ts hte hts; rw [hen] at hte; cases hte

theorem onTimerExpire_lock_skip (s : SysState) (now : Int)
    (hded : ¬(now - s.engine.lastExpirationTime < 5000))
    (hlock : s.engine.expirationLock = true ∨ s.engine.isExpiring = true) :
    onTimerExpire s now = { s with engine := { s.engine with lastExpirationTime := now } } := by
  unfold onTimerExpire
  rw [if_neg hded]
  rcases hlock with hl | hl <;> simp [hl]

theorem onTimerExpire_none_proj (s : SysState) (now : Int)
    (hded : ¬(now - s.engine.lastExpirationTime < 5000))
    (hlock : s.engine.expirationLock = false) (hexp : s.engine.isExpiring = false)
    (hnone : s.engine.activeTimer = none) :
    (onTimerExpire s now).store.activeTimer = none ∧
    (onTimerExpire s now).engine.activeTimer = none := by
  unfold onTimerExpire
  rw [if_neg hded]
  simp [hlock, hexp, hnone, finalCleanup]

theorem onTimerExpire_some_proj (s : SysState) (now : Int) (t : TimerRecord)
    (hded : ¬(now - s.engine.lastExpirationTime < 5000))
    (hlock : s.engine.expirationLock = false) (hexp : s.engine.isExpiring = false)
    (ht : s.engine.activeTimer = some t) :
    (onTimerExpire s now).store.activeTimer = s.store.activeTimer ∧
    (onTimerExpire s now).engine.activeTimer = some t ∧
    (onTimerExpire s now).engine.intervalId = false := by
  unfold onTimerExpire
  rw [if_neg hded]
  simp only [ht, hlock, hexp]
  refine ⟨?_, ?_, ?_⟩ <;>
    · simp only [Bool.or_self, Bool.false_eq_true, if_false]
      split <;>
        simp [showExpiryNotification_store, showExpiryNotification_engine,
          saveLastTimerInfo_activeRecord, saveLastTimerInfo_engine]

theorem inv_onTimerExpire {s : SysState} {T : Int} (h : Inv s T) (now : Int) (hT : T ≤ now) :
    Inv (onTimerExpire s now) now := by
  by_cases hded : now - s.engine.lastExpirationTime < 5000
  · rw [onTimerExpire_dedup_skip s now hded]
    exact Inv_mono h hT
  · by_cases hle : s.engine.expirationLock = true ∨ s.engine.isExpiring = true
    · rw [onTimerExpire_lock_skip s now hded hle]
      exact Inv_transfer h hT rfl rfl (fun hh => hh)
    · push_neg at hle
      obtain ⟨hl, he⟩ := hle
      simp only [Bool.not_eq_true] at hl he
      cases heq : s.engine.activeTimer with
      | none =>
        obtain ⟨e1, e2⟩ := onTimerExpire_none_proj s now hded hl he heq
        exact Inv_none now e1 e2
      | some t =>
        obtain ⟨p1, p2, p3⟩ := onTimerExpire_some_proj s now t hded hl he heq
        refine Inv_transfer h hT p1 (p2.trans heq.symm) ?_
        intro hiv
        rw [p3] at hiv
        cases hiv

theorem checkAndExpireIfNeeded_due_eq (s : SysState) (now : Int) (t : TimerRecord)
    (ht : s.engine.activeTimer = some t) (hexp : s.engine.isExpiring = false)
    (hdue : t.duration - (now - t.startTime) / 1000 ≤ 0) :
    checkAndExpireIfNeeded s now =
      onTimerExpire
        { s with engine := { s.engine with activeTimer := some { t with remaining := 0 } } }
        now := by
  unfold checkAndExpireIfNeeded
  rw [ht]
  simp only [hexp, Bool.false_eq_true, if_false]
  rw [if_pos hdue]

theorem inv_checkAndExpireIfNeeded {s : SysState} {T : Int} (h : Inv s T) (now : Int)
    (hT : T ≤ now) :
    Inv (checkAndExpireIfNeeded s now) now := by
  cases heq : s.engine.activeTimer with
  | none =>
    rw [checkAndExpireIfNeeded_none s now heq]
    exact Inv_mono h hT
  | some t =>
    cases hE : s.engine.isExpiring with
    | true =>
      rw [checkAndExpireIfNeeded_of_isExpiring s now hE]
      exact Inv_mono h hT
    | false =>
      by_cases hdue : t.duration - (now - t.startTime) / 1000 ≤ 0
      · rw [checkAndExpireIfNeeded_due_eq s now t heq hE hdue]
        refine inv_onTimerExpire ?_ now le_rfl
        obtain ⟨h1, h2, h3, h4⟩ := h
        obtain ⟨⟨hb1, hb2⟩, hs⟩ := h2 t heq
        refine ⟨?_, ?_, ?_, ?_⟩
        · intro u hu
          obtain ⟨hb, hst⟩ := h1 u hu
          exact ⟨hb, by omega⟩
        · intro u hu
          have hu' : u = { t with remaining := 0 } := (Option.some.inj hu).symm
          subst hu'
          exact ⟨⟨le_refl 0, by simp; omega⟩, by simp; omega⟩
        · intro u hu hiv hsta hrem
          have hu' : u = { t with remaining := 0 } := (Option.some.inj hu).symm
          subst hu'
          show ({ t with remaining := 0 } : TimerRecord).duration ≤ _
          simp only
          omega
        · intro te ts hte hts
          have hte' : te = { t with remaining := 0 } := (Option.some.inj hte).symm
          subst hte'
          obtain ⟨q1, q2, q3⟩ := h4 t ts heq hts
          exact ⟨q1, q2, q3⟩
      · rw [checkAndExpireIfNeeded_not_due s now t heq (by omega)]
        exact Inv_mono h hT

/-- Invariant builder for states whose cached and stored record are the same
`t1`. -/
theorem Inv_build {s' : SysState} (T' : Int) (t1 : TimerRecord)
    (hen : s'.engine.activeTimer = some t1)
    (hst : s'.store.activeTimer = some t1)
    (hrec : recOK t1) (hstart : t1.startTime ≤ T')
    (hdue : s'.engine.intervalId = true → t1.status = TStatus.active → t1.remaining ≤ 0 →
      wallClockDue t1 T') :
    Inv s' T' := by
  refine ⟨?_, ?_, ?_, ?_⟩
  · intro u hu
    rw [hst] at hu
    obtain rfl := Option.some.inj hu
    exact ⟨hrec, hstart⟩
  · intro u hu
    rw [hen] at hu
    obtain rfl := Option.some.inj hu
    exact ⟨hrec, hstart⟩
  · intro u hu hiv hsta hrem
    rw [hen] at hu
    obtain rfl := Option.some.inj hu
    exact hdue hiv hsta hrem
  · intro te ts hte hts
    rw [hen] at hte
    rw [hst] at hts
    obtain rfl := Option.some.inj hte
    obtain rfl := Option.some.inj hts
    exact ⟨rfl, rfl, rfl⟩

theorem inv_stopTimer {s : SysState} (now : Int) : Inv (stopTimer s) now :=
  Inv_none now rfl rfl

theorem inv_finalCleanupTimeout {s : SysState} {T : Int} (h : Inv s T) (now : Int)
    (hT : T ≤ now) :
    Inv (finalCleanupTimeout s) now := by
  unfold finalCleanupTimeout
  split
  · exact Inv_none now rfl rfl
  · exact Inv_mono h hT

theorem inv_processRestart {s : SysState} {T : Int} (h : Inv s T) (now : Int) (hT : T ≤ now) :
    Inv (processRestart s) now := by
  obtain ⟨h1, -, -, -⟩ := h
  refine ⟨?_, ?_, ?_, ?_⟩
  · intro u hu
    obtain ⟨hb, hs⟩ := h1 u hu
    exact ⟨hb, by omega⟩
  · intro u hu; cases hu
  · intro u hu; cases hu
  · intro te ts hte hts; cases hte

theorem inv_tabRemoved {s : SysState} {T : Int} (h : Inv s T) (now : Int) (hT : T ≤ now)
    (i : Nat) :
    Inv (tabRemoved s i) now := by
  unfold tabRemoved
  cases heq : s.engine.activeTimer with
  | none =>
    simp only [heq]
    exact Inv_transfer h hT rfl rfl (fun hh => hh)
  | some t =>
    simp only [heq]
    by_cases hi : t.tabId = i
    · rw [if_pos hi]
      exact inv_stopTimer now
    · rw [if_neg hi]
      exact Inv_transfer h hT rfl rfl (fun hh => hh)

theorem inv_pauseTimer {s : SysState} {T : Int} (h : Inv s T) (now : Int) (hT : T ≤ now) :
    Inv (pauseTimer s now).1 now := by
  cases heq : s.engine.activeTimer with
  | none =>
    simp only [pauseTimer, heq]
    exact Inv_mono h hT
  | some t =>
    by_cases hp : t.status = TStatus.paused
    · simp only [pauseTimer, heq, if_pos hp]
      exact Inv_mono h hT
    · simp only [pauseTimer, heq, if_neg hp]
      obtain ⟨-, h2, -, -⟩ := h
      obtain ⟨hb, hs⟩ := h2 t heq
      refine Inv_build now { t with status := .paused, pausedAt := some now } ?_ ?_ ?_ ?_ ?_
      · rw [broadcastTimerUpdate_activeTimer, saveTimerState_engine]
      · rw [broadcastTimerUpdate_store]
        simp [saveTimerState]
      · exact hb
      · show t.startTime ≤ now
        omega
      · intro hiv
        rw [broadcastTimerUpdate_intervalId, saveTimerState_engine] at hiv
        cases hiv

theorem inv_resumeTimer {s : SysState} {T : Int} (h : Inv s T) (now : Int) (hT : T ≤ now) :
    Inv (resumeTimer s now).1 now := by
  cases heq : s.engine.activeTimer with
  | none =>
    simp only [resumeTimer, heq]
    exact Inv_mono h hT
  | some t =>
    by_cases hp : t.status = TStatus.paused
    · simp [resumeTimer, heq, hp]
      obtain ⟨-, h2, -, -⟩ := h
      obtain ⟨⟨hb1, hb2⟩, hs⟩ := h2 t heq
      refine Inv_build now
        { t with
          status := .active
          startTime := now - (t.duration - t.remaining) * 1000
          pausedAt := none } ?_ ?_ ?_ ?_ ?_
      · rw [broadcastTimerUpdate_activeTimer]
        simp [saveTimerState_engine]
      · rw [broadcastTimerUpdate_store]
        simp [saveTimerState]
      · exact ⟨hb1, hb2⟩
      · show now - (t.duration - t.remaining) * 1000 ≤ now
        omega
      · intro _ _ hrem
        show (t.duration : Int) ≤ (now - (now - (t.duration - t.remaining) * 1000)) / 1000
        have hrem0 : t.remaining = 0 := by
          have hr : t.remaining ≤ 0 := hrem
          omega
        have he : now - (now - (t.duration - t.remaining) * 1000) = t.duration * 1000 := by
          rw [hrem0]; ring
        rw [he, Int.mul_ediv_cancel _ (by norm_num)]
    · simp [resumeTimer, heq, hp]
      exact Inv_mono h hT

theorem inv_extendTimer {s : SysState} {T : Int} (h : Inv s T) (now n : Int) (hT : T ≤ now)
    (hn : 0 ≤ n) :
    Inv (extendTimer s now n).1 now := by
  cases heq : s.engine.activeTimer with
  | none =>
    simp only [extendTimer, heq]
    exact Inv_mono h hT
  | some t =>
    simp only [extendTimer, heq]
    obtain ⟨-, h2, h3, -⟩ := h
    obtain ⟨⟨hb1, hb2⟩, hs⟩ := h2 t heq
    refine Inv_build now
      { t with remaining := t.remaining + n, duration := t.duration + n } ?_ ?_ ?_ ?_ ?_
    · rw [broadcastTimerUpdate_activeTimer, saveTimerState_engine]
    · rw [broadcastTimerUpdate_store]
      simp [saveTimerState]
    · refine ⟨?_, ?_⟩
      · show (0 : Int) ≤ t.remaining + n
        omega
      · show t.remaining + n ≤ t.duration + n
        omega
    · show t.startTime ≤ now
      omega
    · intro hiv hsta hrem
      have hiv' : s.engine.intervalId = true := by
        rw [broadcastTimerUpdate_intervalId, saveTimerState_engine] at hiv
        exact hiv
      have hsta' : t.status = TStatus.active := hsta
      have hrem' : t.remaining + n ≤ 0 := hrem
      clear hiv hsta hrem
      have hd : wallClockDue t T := h3 t heq hiv' hsta' (by omega)
      have hd' : wallClockDue t now := wallClockDue_mono hd hT
      unfold wallClockDue at hd'
      show (t.duration + n : Int) ≤ (now - t.startTime) / 1000
      omega

theorem inv_startTimer {s : SysState} {T : Int} (h : Inv s T) (now d : Int) (i : Nat)
    (hT : T ≤ now) :
    Inv (startTimer s now d i).1 now := by
  by_cases hv : d < 1 ∨ 86400 < d
  · simp only [startTimer, if_pos hv]
    exact Inv_mono h hT
  · cases htb : tabGet s i with
    | none =>
      simp only [startTimer, if_neg hv, htb]
      exact Inv_mono h hT
    | some tb =>
      simp only [startTimer, if_neg hv, htb]
      push_neg at hv
      refine Inv_build now
        { tabId := i, platform := detectPlatform tb.host, duration := d, remaining := d,
          startTime := now, status := .active, pausedAt := none } ?_ ?_ ?_ ?_ ?_
      · rw [broadcastTimerUpdate_activeTimer]
      · rw [broadcastTimerUpdate_store]
      · refine ⟨?_, ?_⟩
        · show (0 : Int) ≤ d
          omega
        · show (d : Int) ≤ d
          omega
      · show (now : Int) ≤ now
        omega
      · intro _ _ hrem
        have hd0 : (d : Int) ≤ 0 := hrem
        exact absurd hd0 (by omega)

theorem inv_getTimerStatus {s : SysState} {T : Int} (h : Inv s T) (now : Int) (hT : T ≤ now) :
    Inv (getTimerStatus s now).1 now := by
  cases hsv : s.store.activeTimer with
  | none =>
    simp only [getTimerStatus, hsv]
    exact Inv_mono h hT
  | some saved =>
    simp only [getTimerStatus, hsv]
    set R : Int := if saved.status = TStatus.paused then saved.remaining
      else max 0 (saved.duration - (now - saved.startTime) / 1000) with hR
    by_cases hg : R < 0 ∨ s.engine.activeTimer = none
    · rw [if_pos hg]
      exact Inv_mono h hT
    · rw [if_neg hg]
      push_neg at hg
      obtain ⟨hr0, hen⟩ := hg
      cases heq : s.engine.activeTimer with
      | none => exact absurd heq hen
      | some te =>
        simp only [heq]
        obtain ⟨h1, h2, h3, h4⟩ := h
        obtain ⟨⟨sb1, sb2⟩, ss⟩ := h1 saved hsv
        obtain ⟨⟨eb1, eb2⟩, es⟩ := h2 te heq
        obtain ⟨q1, q2, q3⟩ := h4 te saved heq hsv
        have hel : 0 ≤ (now - saved.startTime) / 1000 :=
          Int.ediv_nonneg (by omega) (by norm_num)
        have hRub : R ≤ saved.duration := by
          rw [hR]
          by_cases hp : saved.status = TStatus.paused
          · simp only [hp, if_true]
            exact sb2
          · rw [if_neg hp]
            exact max_le (by omega) (by omega)
        have hRdue : saved.status = TStatus.active → R ≤ 0 →
            saved.duration ≤ (now - saved.startTime) / 1000 := by
          intro ha hr
          rw [hR] at hr
          rw [if_neg (by simp [ha])] at hr
          have : saved.duration - (now - saved.startTime) / 1000 ≤ 0 :=
            le_trans (le_max_right _ _) hr
          omega
        refine ⟨?_, ?_, ?_, ?_⟩
        · intro u hu
          have hu' : s.store.activeTimer = some u := hu
          obtain ⟨hb, hst'⟩ := h1 u hu'
          exact ⟨hb, by omega⟩
        · intro u hu
          have hu' : u = { te with remaining := R } := (Option.some.inj hu).symm
          subst hu'
          refine ⟨⟨?_, ?_⟩, ?_⟩
          · show (0 : Int) ≤ R
            omega
          · show R ≤ te.duration
            omega
          · show te.startTime ≤ now
            omega
        · intro u hu hiv hsta hrem
          have hu' : u = { te with remaining := R } := (Option.some.inj hu).symm
          subst hu'
          have hsta' : te.status = TStatus.active := hsta
          have hrem' : R ≤ 0 := hrem
          have hdue := hRdue (q1 ▸ hsta') hrem'
          show te.duration ≤ (now - te.startTime) / 1000
          rw [q2, q3]
          exact hdue
        · intro u v hu hv
          have hu' : u = { te with remaining := R } := (Option.some.inj hu).symm
          have hv' : s.store.activeTimer = some v := hv
          rw [hsv] at hv'
          obtain rfl := Option.some.inj hv'
          subst hu'
          exact ⟨q1, q2, q3⟩

/-- Invariant builder for states whose cached record `te` and stored record
`ts` may differ in `remaining` but agree on status, anchor and duration. -/
theorem Inv_pair {s' : SysState} (T' : Int) (te ts : TimerRecord)
    (hen : s'.engine.activeTimer = some te) (hst : s'.store.activeTimer = some ts)
    (hrecE : recOK te) (hrecS : recOK ts) (hsE : te.startTime ≤ T') (hsS : ts.startTime ≤ T')
    (heqr : te.status = ts.status ∧ te.startTime = ts.startTime ∧ te.duration = ts.duration)
    (hdue : s'.engine.intervalId = true → te.status = TStatus.active → te.remaining ≤ 0 →
      wallClockDue te T') :
    Inv s' T' := by
  refine ⟨?_, ?_, ?_, ?_⟩
  · intro u hu
    rw [hst] at hu
    obtain rfl := Option.some.inj hu
    exact ⟨hrecS, hsS⟩
  · intro u hu
    rw [hen] at hu
    obtain rfl := Option.some.inj hu
    exact ⟨hrecE, hsE⟩
  · intro u hu hiv hsta hrem
    rw [hen] at hu
    obtain rfl := Option.some.inj hu
    exact hdue hiv hsta hrem
  · intro u v hu hv
    rw [hen] at hu
    rw [hst] at hv
    obtain rfl := Option.some.inj hu
    obtain rfl := Option.some.inj hv
    exact heqr

theorem inv_syncTimerState {s : SysState} {T : Int} (h : Inv s T) (now : Int) (hT : T ≤ now) :
    Inv (syncTimerState s now) now := by
  unfold syncTimerState
  by_cases hg : (s.engine.isExpiring || s.engine.intervalId) = true
  · rw [if_pos hg]
    exact Inv_mono h hT
  · rw [if_neg hg]
    have hivF : s.engine.intervalId = false := by
      revert hg; cases s.engine.intervalId <;> simp
    have hexF : s.engine.isExpiring = false := by
      revert hg; cases s.engine.isExpiring <;> simp
    cases hsv : s.store.activeTimer with
    | none =>
      simp only [hsv]
      refine Inv_transfer h hT rfl rfl ?_
      intro hiv
      simp [cleanup] at hiv
    | some saved =>
      simp only [hsv]
      by_cases hsa : saved.status ≠ TStatus.active
      · rw [if_pos hsa]
        refine Inv_transfer h hT rfl rfl ?_
        intro hiv
        simp [cleanup] at hiv
      · rw [if_neg hsa]
        push_neg at hsa
        obtain ⟨h1, h2, h3, h4⟩ := h
        obtain ⟨⟨sb1, sb2⟩, ss⟩ := h1 saved hsv
        have hel : 0 ≤ (now - saved.startTime) / 1000 :=
          Int.ediv_nonneg (by omega) (by norm_num)
        by_cases hdue : saved.duration - (now - saved.startTime) / 1000 ≤ 0
        · rw [if_pos hdue]
          refine inv_onTimerExpire ?_ now le_rfl
          refine Inv_pair now { saved with remaining := 0 } saved rfl ?_ ?_ ?_ ?_ ?_ ?_ ?_
          · exact hsv
          · exact ⟨le_refl 0, by show (0 : Int) ≤ saved.duration; omega⟩
          · exact ⟨sb1, sb2⟩
          · show saved.startTime ≤ now
            omega
          · omega
          · exact ⟨rfl, rfl, rfl⟩
          · intro _ hsta hrem
            show saved.duration ≤ (now - saved.startTime) / 1000
            omega
        · rw [if_neg hdue]
          refine Inv_pair now
            { saved with remaining := saved.duration - (now - saved.startTime) / 1000 } saved
            ?_ ?_ ?_ ?_ ?_ ?_ ?_ ?_
          · rw [broadcastTimerUpdate_activeTimer]
            split <;> rfl
          · rw [broadcastTimerUpdate_store]
            split <;> exact hsv
          · constructor
            · show (0 : Int) ≤ saved.duration - (now - saved.startTime) / 1000
              omega
            · show saved.duration - (now - saved.startTime) / 1000 ≤ saved.duration
              omega
          · exact ⟨sb1, sb2⟩
          · show saved.startTime ≤ now
            omega
          · omega
          · exact ⟨rfl, rfl, rfl⟩
          · intro _ _ hrem
            have hc : saved.duration - (now - saved.startTime) / 1000 ≤ 0 := hrem
            show saved.duration ≤ (now - saved.startTime) / 1000
            omega

/-- Invariant builder for states that changed only the cached record (and
possibly flags), keeping the store slot of an invariant-satisfying state. -/
theorem Inv_cached {s' s : SysState} {T T' : Int} (h : Inv s T) (hT : T ≤ T')
    (te : TimerRecord)
    (hen : s'.engine.activeTimer = some te)
    (hst : s'.store.activeTimer = s.store.activeTimer)
    (hrecE : recOK te) (hsE : te.startTime ≤ T')
    (hmatch : ∀ ts, s.store.activeTimer = some ts →
      te.status = ts.status ∧ te.startTime = ts.startTime ∧ te.duration = ts.duration)
    (hdue : s'.engine.intervalId = true → te.status = TStatus.active → te.remaining ≤ 0 →
      wallClockDue te T') :
    Inv s' T' := by
  obtain ⟨h1, -, -, -⟩ := h
  refine ⟨?_, ?_, ?_, ?_⟩
  · intro u hu
    rw [hst] at hu
    obtain ⟨hb, hs⟩ := h1 u hu
    exact ⟨hb, by omega⟩
  · intro u hu
    rw [hen] at hu
    obtain rfl := Option.some.inj hu
    exact ⟨hrecE, hsE⟩
  · intro u hu hiv hsta hrem
    rw [hen] at hu
    obtain rfl := Option.some.inj hu
    exact hdue hiv hsta hrem
  · intro u v hu hv
    rw [hen] at hu
    rw [hst] at hv
    obtain rfl := Option.some.inj hu
    exact hmatch v hv

theorem inv_handleAlarm {s : SysState} {T : Int} (h : Inv s T) (now : Int) (hT : T ≤ now)
    (a : AlarmName) :
    Inv (handleAlarm s now a) now := by
  cases a with
  | tickAlarm =>
    show Inv (if s.engine.isExpiring = true then s else syncTimerState s now) now
    by_cases hE : s.engine.isExpiring = true
    · rw [if_pos hE]
      exact Inv_mono h hT
    · rw [if_neg hE]
      exact inv_syncTimerState h now hT
  | expiryAlarm => exact inv_checkAndExpireIfNeeded h now hT

theorem Inv_isTicking_wrap {s0 : SysState} {T : Int} (h : Inv s0 T) :
    Inv { s0 with engine := { s0.engine with isTicking := false } } T :=
  Inv_transfer h le_rfl rfl rfl (fun hh => hh)

theorem Inv_isRestoring_wrap {s0 : SysState} {T : Int} (h : Inv s0 T) :
    Inv { s0 with engine := { s0.engine with isRestoring := false } } T :=
  Inv_transfer h le_rfl rfl rfl (fun hh => hh)

theorem inv_tick {s : SysState} {T : Int} (h : Inv s T) (now : Int) (hT : T ≤ now)
    (hperm : s.engine.intervalId = true) :
    Inv (tick s now) now := by
  cases heq : s.engine.activeTimer with
  | none =>
    simp only [tick, heq]
    exact Inv_transfer h hT rfl (by rw [heq]) (fun hh => hh)
  | some t =>
    by_cases hgd : s.engine.isExpiring = true ∨ s.engine.isTicking = true ∨
        t.status = TStatus.paused
    · simp only [tick, heq]
      rw [if_pos hgd]
      exact Inv_transfer h hT rfl (by rw [heq]) (fun hh => hh)
    · simp only [tick, heq]
      rw [if_neg hgd]
      push_neg at hgd
      obtain ⟨hexp, htic, hpau⟩ := hgd
      simp only [Bool.not_eq_true] at hexp htic
      obtain ⟨h1, h2, h3, h4⟩ := h
      obtain ⟨⟨eb1, eb2⟩, es⟩ := h2 t heq
      have hsta : t.status = TStatus.active := by
        cases hs : t.status
        · rfl
        · exact absurd hs hpau
      have hmatch : ∀ ts, s.store.activeTimer = some ts →
          t.status = ts.status ∧ t.startTime = ts.startTime ∧ t.duration = ts.duration :=
        fun ts hts => h4 t ts heq hts
      split
      · next hz =>
        have hz' : t.remaining - 1 ≤ 0 := hz
        apply Inv_isTicking_wrap
        by_cases hdueN : t.duration ≤ (now - t.startTime) / 1000
        · rw [checkAndExpireIfNeeded_due_eq _ now { t with remaining := t.remaining - 1 }]
          · refine inv_onTimerExpire ?_ now le_rfl
            refine Inv_cached ⟨h1, h2, h3, h4⟩ hT { t with remaining := 0 } rfl ?_ ?_ ?_ ?_ ?_
            · simp [broadcastTimerUpdate_store]
            · constructor
              · exact le_refl 0
              · show (0 : Int) ≤ t.duration
                omega
            · show t.startTime ≤ now
              omega
            · intro ts hts
              exact hmatch ts hts
            · intro _ _ _
              show t.duration ≤ (now - t.startTime) / 1000
              omega
          · simp [broadcastTimerUpdate_activeTimer]
          · simp [broadcastTimerUpdate_isExpiring, hexp]
          · show t.duration - (now - t.startTime) / 1000 ≤ 0
            omega
        · have hr1 : 1 ≤ t.remaining := by
            rcases lt_or_le 0 t.remaining with hc | hc
            · omega
            · exact absurd (wallClockDue_mono (h3 t heq hperm hsta (by omega)) hT) hdueN
          rw [checkAndExpireIfNeeded_not_due _ now { t with remaining := t.remaining - 1 }]
          · refine Inv_cached ⟨h1, h2, h3, h4⟩ hT { t with remaining := t.remaining - 1 }
              ?_ ?_ ?_ ?_ ?_ ?_
            · simp [broadcastTimerUpdate_activeTimer]
            · simp [broadcastTimerUpdate_store]
            · constructor
              · show (0 : Int) ≤ t.remaining - 1
                omega
              · show t.remaining - 1 ≤ t.duration
                omega
            · show t.startTime ≤ now
              omega
            · intro ts hts
              exact hmatch ts hts
            · intro hiv
              exact absurd hiv Bool.false_ne_true
          · simp [broadcastTimerUpdate_activeTimer]
          · show 0 < t.duration - (now - t.startTime) / 1000
            omega
      · next hz =>
        have hz' : ¬(t.remaining - 1 ≤ 0) := hz
        apply Inv_isTicking_wrap
        split
        · refine Inv_build now { t with remaining := t.remaining - 1 } ?_ ?_ ?_ ?_ ?_
          · simp [saveTimerState_engine, broadcastTimerUpdate_activeTimer]
          · simp [saveTimerState, broadcastTimerUpdate_activeTimer, broadcastTimerUpdate_store]
          · constructor
            · show (0 : Int) ≤ t.remaining - 1
              omega
            · show t.remaining - 1 ≤ t.duration
              omega
          · show t.startTime ≤ now
            omega
          · intro _ _ hrem
            have hcc : t.remaining - 1 ≤ 0 := hrem
            exact absurd hcc hz'
        · refine Inv_cached ⟨h1, h2, h3, h4⟩ hT { t with remaining := t.remaining - 1 }
            ?_ ?_ ?_ ?_ ?_ ?_
          · simp [broadcastTimerUpdate_activeTimer]
          · simp [broadcastTimerUpdate_store]
          · constructor
            · show (0 : Int) ≤ t.remaining - 1
              omega
            · show t.remaining - 1 ≤ t.duration
              omega
          · show t.startTime ≤ now
            omega
          · intro ts hts
            exact hmatch ts hts
          · intro _ _ hrem
            have hcc : t.remaining - 1 ≤ 0 := hrem
            exact absurd hcc hz'

theorem inv_restoreTimer {s : SysState} {T : Int} (h : Inv s T) (now : Int) (hT : T ≤ now) :
    Inv (restoreTimer s now).1 now := by
  unfold restoreTimer
  by_cases hg : (s.engine.activeTimer.isSome || s.engine.isExpiring || s.engine.isRestoring)
      = true
  · rw [if_pos hg]
    exact Inv_mono h hT
  · rw [if_neg hg]
    cases hsv : s.store.activeTimer with
    | none =>
      simp only [hsv]
      exact Inv_mono h hT
    | some saved =>
      simp only [hsv]
      by_cases hsa : saved.status ≠ TStatus.active
      · rw [if_pos hsa]
        exact Inv_mono h hT
      · rw [if_neg hsa]
        push_neg at hsa
        obtain ⟨hc1, hc2, hc3, hc4⟩ := h
        obtain ⟨⟨sb1, sb2⟩, ss⟩ := hc1 saved hsv
        have hel : 0 ≤ (now - saved.startTime) / 1000 :=
          Int.ediv_nonneg (by omega) (by norm_num)
        cases htb : tabGet s saved.tabId with
        | none =>
          simp only [htb]
          exact Inv_none now rfl rfl
        | some tb =>
          simp only [htb]
          by_cases hdue : saved.duration - (now - saved.startTime) / 1000 ≤ 0
          · rw [if_pos hdue]
            apply Inv_isRestoring_wrap
            refine inv_checkAndExpireIfNeeded ?_ now le_rfl
            refine Inv_cached ⟨hc1, hc2, hc3, hc4⟩ hT { saved with remaining := 0 }
              rfl rfl ?_ ?_ ?_ ?_
            · constructor
              · exact le_refl 0
              · show (0 : Int) ≤ saved.duration
                omega
            · show saved.startTime ≤ now
              omega
            · intro ts hts
              rw [hsv] at hts
              obtain rfl := Option.some.inj hts
              exact ⟨rfl, rfl, rfl⟩
            · intro _ _ _
              show saved.duration ≤ (now - saved.startTime) / 1000
              omega
          · rw [if_neg hdue]
            refine Inv_cached ⟨hc1, hc2, hc3, hc4⟩ hT
              { saved with remaining := saved.duration - (now - saved.startTime) / 1000 }
              ?_ ?_ ?_ ?_ ?_ ?_
            · simp [broadcastTimerUpdate_activeTimer]
            · simp [broadcastTimerUpdate_store]
            · constructor
              · show (0 : Int) ≤ saved.duration - (now - saved.startTime) / 1000
                omega
              · show saved.duration - (now - saved.startTime) / 1000 ≤ saved.duration
                omega
            · show saved.startTime ≤ now
              omega
            · intro ts hts
              rw [hsv] at hts
              obtain rfl := Option.some.inj hts
              exact ⟨rfl, rfl, rfl⟩
            · intro _ _ hrem
              have hcc : saved.duration - (now - saved.startTime) / 1000 ≤ 0 := hrem
              exact absurd hcc hdue

theorem inv_stepEv {s : SysState} {T : Int} (h : Inv s T) (now : Int) (hT : T ≤ now)
    (e : Event) (hp : permitted s e) : Inv (stepEv s now e) now := by
  cases e with
  | evStart d i => exact inv_startTimer h now d i hT
  | evStop => exact inv_stopTimer now
  | evPause => exact inv_pauseTimer h now hT
  | evResume => exact inv_resumeTimer h now hT
  | evExtend n => exact inv_extendTimer h now n hT hp
  | evStatus => exact inv_getTimerStatus h now hT
  | evTick => exact inv_tick h now hT hp
  | evAlarmTick => exact inv_handleAlarm h now hT .tickAlarm
  | evAlarmExpiry => exact inv_handleAlarm h now hT .expiryAlarm
  | evRestore => exact inv_restoreTimer h now hT
  | evExpireTimeout => exact inv_finalCleanupTimeout h now hT
  | evProcessRestart => exact inv_processRestart h now hT
  | evTabClosed i => exact inv_tabRemoved h now hT i

theorem reachable_inv {s : SysState} {T : Int} (h : Reachable s T) : Inv s T := by
  induction h with
  | init tabs settings T => exact Inv_init tabs settings T
  | step now e hr hle hp ih => exact inv_stepEv ih now hle e hp

theorem startTimer_ret_bounds (s : SysState) (now d : Int) (i : Nat) (t : TimerRecord)
    (hret : (startTimer s now d i).2 = Except.ok t) :
    0 ≤ t.remaining ∧ t.remaining ≤ t.duration := by
  unfold startTimer at hret
  by_cases hv : d < 1 ∨ 86400 < d
  · rw [if_pos hv] at hret
    exact Except.noConfusion hret
  · rw [if_neg hv] at hret
    cases htb : tabGet s i with
    | none =>
      simp only [htb] at hret
      exact Except.noConfusion hret
    | some tb =>
      simp only [htb] at hret
      obtain rfl := Except.ok.inj hret
      push_neg at hv
      exact ⟨by show (0 : Int) ≤ d; omega, le_refl d⟩

theorem pauseTimer_ret_bounds {s : SysState} {T : Int} (h : Inv s T) (now : Int)
    (t : TimerRecord) (hret : (pauseTimer s now).2 = Except.ok t) :
    0 ≤ t.remaining ∧ t.remaining ≤ t.duration := by
  obtain ⟨-, h2, -, -⟩ := h
  cases heq : s.engine.activeTimer with
  | none =>
    simp only [pauseTimer, heq] at hret
    exact Except.noConfusion hret
  | some u =>
    obtain ⟨⟨b1, b2⟩, -⟩ := h2 u heq
    by_cases hp : u.status = TStatus.paused
    · simp only [pauseTimer, heq] at hret
      rw [if_pos hp] at hret
      obtain rfl := Except.ok.inj hret
      exact ⟨b1, b2⟩
    · simp only [pauseTimer, heq] at hret
      rw [if_neg hp] at hret
      obtain rfl := Except.ok.inj hret
      exact ⟨b1, b2⟩

theorem resumeTimer_ret_bounds {s : SysState} {T : Int} (h : Inv s T) (now : Int)
    (t : TimerRecord) (hret : (resumeTimer s now).2 = Except.ok t) :
    0 ≤ t.remaining ∧ t.remaining ≤ t.duration := by
  obtain ⟨-, h2, -, -⟩ := h
  cases heq : s.engine.activeTimer with
  | none =>
    simp only [resumeTimer, heq] at hret
    exact Except.noConfusion hret
  | some u =>
    obtain ⟨⟨b1, b2⟩, -⟩ := h2 u heq
    by_cases hp : u.status = TStatus.paused
    · simp [resumeTimer, heq, hp] at hret
      obtain rfl := hret.symm
      exact ⟨b1, b2⟩
    · simp [resumeTimer, heq, hp] at hret
      obtain rfl := hret.symm
      exact ⟨b1, b2⟩

theorem extendTimer_ret_bounds {s : SysState} {T : Int} (h : Inv s T) (now n : Int)
    (hn : 0 ≤ n) (t : TimerRecord) (hret : (extendTimer s now n).2 = Except.ok t) :
    0 ≤ t.remaining ∧ t.remaining ≤ t.duration := by
  obtain ⟨-, h2, -, -⟩ := h
  cases heq : s.engine.activeTimer with
  | none =>
    simp only [extendTimer, heq] at hret
    exact Except.noConfusion hret
  | some u =>
    obtain ⟨⟨b1, b2⟩, -⟩ := h2 u heq
    simp only [extendTimer, heq] at hret
    obtain rfl := Except.ok.inj hret
    constructor
    · show (0 : Int) ≤ u.remaining + n
      omega
    · show u.remaining + n ≤ u.duration + n
      omega

theorem getTimerStatus_ret_bounds {s : SysState} {T : Int} (h : Inv s T) (now : Int)
    (hT : T ≤ now) (st : TStatus) (rem dur : Int) (pf : String) (i : Nat) (m : Int)
    (hret : (getTimerStatus s now).2 = TimerStatusResult.snapshot st rem dur pf i m) :
    0 ≤ rem ∧ rem ≤ dur := by
  obtain ⟨h1, -, -, -⟩ := h
  cases hsv : s.store.activeTimer with
  | none =>
    simp only [getTimerStatus, hsv] at hret
    exact TimerStatusResult.noConfusion hret
  | some saved =>
    simp only [getTimerStatus, hsv] at hret
    set R : Int := if saved.status = TStatus.paused then saved.remaining
      else max 0 (saved.duration - (now - saved.startTime) / 1000) with hR
    obtain ⟨⟨sb1, sb2⟩, ss⟩ := h1 saved hsv
    have hel : 0 ≤ (now - saved.startTime) / 1000 :=
      Int.ediv_nonneg (by omega) (by norm_num)
    have hRub : R ≤ saved.duration := by
      rw [hR]
      by_cases hp : saved.status = TStatus.paused
      · simp only [hp, if_true]
        exact sb2
      · rw [if_neg hp]
        exact max_le (by omega) (by omega)
    by_cases hg : R < 0 ∨ s.engine.activeTimer = none
    · rw [if_pos hg] at hret
      exact TimerStatusResult.noConfusion hret
    · rw [if_neg hg] at hret
      push_neg at hg
      obtain ⟨hr0, hen⟩ := hg
      cases heq : s.engine.activeTimer with
      | none => exact absurd heq hen
      | some te =>
        simp only [heq] at hret
        obtain ⟨-, rfl, rfl, -, -, -⟩ := TimerStatusResult.snapshot.inj hret
        exact ⟨by omega, hRub⟩

/-- C6: in every state reachable by any interleaving of engine operations,
platform callbacks, process restarts and tab closures at non-decreasing times,
the persisted record and the cached record satisfy
`0 ≤ remainingSeconds ≤ durationSeconds`, and so does every timer record or
status snapshot returned by `start`/`pause`/`resume`/`extend`/`status`. -/
theorem c6_remaining_bounds (s : SysState) (T : Int) (hreach : Reachable s T) :
    (∀ t, s.store.activeTimer = some t → 0 ≤ t.remaining ∧ t.remaining ≤ t.duration) ∧
    (∀ t, s.engine.activeTimer = some t → 0 ≤ t.remaining ∧ t.remaining ≤ t.duration) ∧
    (∀ now d i t, (startTimer s now d i).2 = Except.ok t →
      0 ≤ t.remaining ∧ t.remaining ≤ t.duration) ∧
    (∀ now t, (pauseTimer s now).2 = Except.ok t →
      0 ≤ t.remaining ∧ t.remaining ≤ t.duration) ∧
    (∀ now t, (resumeTimer s now).2 = Except.ok t →
      0 ≤ t.remaining ∧ t.remaining ≤ t.duration) ∧
    (∀ now n t, 0 ≤ n → (extendTimer s now n).2 = Except.ok t →
      0 ≤ t.remaining ∧ t.remaining ≤ t.duration) ∧
    (∀ now st rem dur pf i m, T ≤ now →
      (getTimerStatus s now).2 = TimerStatusResult.snapshot st rem dur pf i m →
      0 ≤ rem ∧ rem ≤ dur) := by
  have hinv := reachable_inv hreach
  obtain ⟨h1, h2, -, -⟩ := hinv
  refine ⟨?_, ?_, ?_, ?_, ?_, ?_, ?_⟩
  · intro t ht
    exact (h1 t ht).1
  · intro t ht
    exact (h2 t ht).1
  · intro now d i t hret
    exact startTimer_ret_bounds s now d i t hret
  · intro now t hret
    exact pauseTimer_ret_bounds (reachable_inv hreach) now t hret
  · intro now t hret
    exact resumeTimer_ret_bounds (reachable_inv hreach) now t hret
  · intro now n t hn hret
    exact extendTimer_ret_bounds (reachable_inv hreach) now n hn t hret
  · intro now st rem dur pf i m hTn hret
    exact getTimerStatus_ret_bounds (reachable_inv hreach) now hTn st rem dur pf i m hret

/-- The record persisted by starting a 40 s timer on tab 7 at 1000000. -/
def startedRec : TimerRecord :=
  { tabId := 7, platform := "youtube", duration := 40, remaining := 40,
    startTime := 1000000, status := .active, pausedAt := none }

/-- Witness for `c6_remaining_bounds` on the reachable state obtained by one
`start(40 s)` event from a fresh install. -/
theorem c6_witness :
    0 ≤ startedRec.remaining ∧ startedRec.remaining ≤ startedRec.duration :=
  (c6_remaining_bounds (stepEv (initState demoTabs none) 1000000 (Event.evStart 40 7)) 1000000
      (Reachable.step 1000000 (Event.evStart 40 7) (Reachable.init demoTabs none 0)
        (by decide) trivial)).1
    startedRec (by rfl)

end AutoPlayVideo
